import Mathlib

/-!
# Pybricks: port modes, the Bluetooth simulation adapter, timers, scheduler, HMI

A shallow embedding of

* `lib/pbio/drv/ioport/ioport.c` (`pbdrv_ioport_p5p6_set_mode`),
* `lib/pbio/drv/bluetooth/bluetooth_simulation.c`
  (`pbdrv_bluetooth_simulation_tick_handler`,
  `pbdrv_bluetooth_simulation_process_thread`, `pbdrv_bluetooth_init_hci`),
* `lib/pbio/platform/nxt/platform.c` (`nx_bt_is_ready`),
* `pybricks/iodevices/pb_type_uart_device.c` (`pb_type_uart_device_make_new`),
* `lib/pbio/sys/hmi.c` (the three button protothreads, `pbsys_hmi_init`,
  `pbsys_hmi_poll`),

and of the timer and the scheduler as the specification describes them,
followed by the properties proved about them.

Hardware is explicit state: every `pbdrv_gpio_*` call both updates the
configuration of the pin it names and is appended to a log of the calls made,
so that properties about the order of the calls and properties about the
resulting pin configuration are stated over the same run. The button threads
are treated alike: their static variables are a record, and the calls they make
into the rest of the system are appended to a log.
-/

namespace Pybricks

/-! ## Status codes -/

/-- The values of `pbio_error_t` that the embedded sources mention. -/
inductive pbio_error_t
  | PBIO_SUCCESS
  | PBIO_ERROR_FAILED
  | PBIO_ERROR_INVALID_ARG
  | PBIO_ERROR_NOT_SUPPORTED
  | PBIO_ERROR_NOT_IMPLEMENTED
  | PBIO_ERROR_AGAIN
  deriving DecidableEq, Repr

/-! ## GPIO -/

/-- A pin handle `pbdrv_gpio_t`: a bank (its address, as a number) and a pin
number within the bank. -/
structure pbdrv_gpio_t where
  bank : Nat
  pin : Nat
  deriving DecidableEq, Repr

/-- Pull configuration `pbdrv_gpio_pull_t`. -/
inductive pbdrv_gpio_pull_t
  | PBDRV_GPIO_PULL_NONE
  | PBDRV_GPIO_PULL_UP
  | PBDRV_GPIO_PULL_DOWN
  deriving DecidableEq, Repr

/-- The electrical role of one pin: input, output driven high, output driven
low, or one of the alternate functions of the pin. -/
inductive PinFunction
  | input
  | out_high
  | out_low
  | alt (fn : Nat)
  deriving DecidableEq, Repr

/-- Configuration of one pin: its role and its pull resistor. -/
structure PinConfig where
  func : PinFunction
  pull : pbdrv_gpio_pull_t
  deriving DecidableEq, Repr

/-- One call into the GPIO driver, as recorded in the call log. -/
inductive GpioCall
  | input (pin : pbdrv_gpio_t)
  | out_high (pin : pbdrv_gpio_t)
  | out_low (pin : pbdrv_gpio_t)
  | alt (pin : pbdrv_gpio_t) (fn : Nat)
  | set_pull (pin : pbdrv_gpio_t) (pull : pbdrv_gpio_pull_t)
  deriving DecidableEq, Repr

/-- The GPIO hardware as the port driver sees it: the configuration of every
pin, and the log of the driver calls made so far, oldest first. -/
structure Gpio where
  cfg : pbdrv_gpio_t → PinConfig
  calls : List GpioCall

/-- Modelled from the spec: the GPIO driver (`pbdrv_gpio_input`) is not in the
sources at hand. The call makes the pin an input and leaves its pull alone. -/
def pbdrv_gpio_input (pin : pbdrv_gpio_t) (hw : Gpio) : Gpio :=
  { cfg := Function.update hw.cfg pin { hw.cfg pin with func := PinFunction.input }
    calls := hw.calls ++ [GpioCall.input pin] }

/-- Modelled from the spec: the GPIO driver (`pbdrv_gpio_out_high`) is not in
the sources at hand. The call drives the pin high and leaves its pull alone. -/
def pbdrv_gpio_out_high (pin : pbdrv_gpio_t) (hw : Gpio) : Gpio :=
  { cfg := Function.update hw.cfg pin { hw.cfg pin with func := PinFunction.out_high }
    calls := hw.calls ++ [GpioCall.out_high pin] }

/-- Modelled from the spec: the GPIO driver (`pbdrv_gpio_out_low`) is not in
the sources at hand. The call drives the pin low and leaves its pull alone. -/
def pbdrv_gpio_out_low (pin : pbdrv_gpio_t) (hw : Gpio) : Gpio :=
  { cfg := Function.update hw.cfg pin { hw.cfg pin with func := PinFunction.out_low }
    calls := hw.calls ++ [GpioCall.out_low pin] }

/-- Modelled from the spec: the GPIO driver (`pbdrv_gpio_alt`) is not in the
sources at hand. The call hands the pin to alternate function `fn` and leaves
its pull alone. -/
def pbdrv_gpio_alt (pin : pbdrv_gpio_t) (fn : Nat) (hw : Gpio) : Gpio :=
  { cfg := Function.update hw.cfg pin { hw.cfg pin with func := PinFunction.alt fn }
    calls := hw.calls ++ [GpioCall.alt pin fn] }

/-- Modelled from the spec: the GPIO driver (`pbdrv_gpio_set_pull`) is not in
the sources at hand. The call sets the pull of the pin and leaves its role
alone. -/
def pbdrv_gpio_set_pull (pin : pbdrv_gpio_t) (pull : pbdrv_gpio_pull_t) (hw : Gpio) : Gpio :=
  { cfg := Function.update hw.cfg pin { hw.cfg pin with pull := pull }
    calls := hw.calls ++ [GpioCall.set_pull pin pull] }

/-! ## Port pins and modes -/

/-- The pin group of a port, `pbdrv_ioport_pins_t`: the five pins and the
alternate-function numbers that select the UART on the two UART pins. -/
structure pbdrv_ioport_pins_t where
  p5 : pbdrv_gpio_t
  p6 : pbdrv_gpio_t
  uart_buf : pbdrv_gpio_t
  uart_tx : pbdrv_gpio_t
  uart_rx : pbdrv_gpio_t
  uart_tx_alt_uart : Nat
  uart_rx_alt_uart : Nat
  deriving DecidableEq, Repr

/-- The five fields of a pin group name five different physical pins. -/
def pbdrv_ioport_pins_t.Distinct (p : pbdrv_ioport_pins_t) : Prop :=
  [p.p5, p.p6, p.uart_buf, p.uart_tx, p.uart_rx].Nodup

instance (p : pbdrv_ioport_pins_t) : Decidable p.Distinct :=
  inferInstanceAs (Decidable ([p.p5, p.p6, p.uart_buf, p.uart_tx, p.uart_rx].Nodup))

/-- The requested mode, `pbdrv_ioport_p5p6_mode_t`. A C enum can carry a value
that is none of its enumerators; `other raw` stands for such a value. -/
inductive pbdrv_ioport_p5p6_mode_t
  | PBDRV_IOPORT_P5P6_MODE_GPIO_ADC
  | PBDRV_IOPORT_P5P6_MODE_UART
  | PBDRV_IOPORT_P5P6_MODE_I2C
  | PBDRV_IOPORT_P5P6_MODE_QUADRATURE
  | other (raw : Nat)
  deriving DecidableEq, Repr

open pbio_error_t pbdrv_gpio_pull_t pbdrv_ioport_p5p6_mode_t

/-- Rank of a mode for the recursion of `pbdrv_ioport_p5p6_set_mode`: the
function only ever calls itself with `PBDRV_IOPORT_P5P6_MODE_GPIO_ADC`, whose
branch makes no further call. -/
def pbdrv_ioport_p5p6_mode_t.depth : pbdrv_ioport_p5p6_mode_t → Nat
  | PBDRV_IOPORT_P5P6_MODE_GPIO_ADC => 0
  | _ => 1

/-- `pbdrv_ioport_p5p6_set_mode` of `ioport.c`. The pin group is `none` for a
null pointer. The result is the returned status and the hardware afterwards. -/
def pbdrv_ioport_p5p6_set_mode (pins : Option pbdrv_ioport_pins_t)
    (mode : pbdrv_ioport_p5p6_mode_t) (hw : Gpio) : pbio_error_t × Gpio :=
  match mode with
  | PBDRV_IOPORT_P5P6_MODE_GPIO_ADC =>
    -- Reset pins if this port has GPIO pins.
    match pins with
    | none => (PBIO_ERROR_NOT_SUPPORTED, hw)
    | some p =>
      let hw := pbdrv_gpio_input p.p5 hw
      let hw := pbdrv_gpio_input p.p6 hw
      let hw := pbdrv_gpio_input p.uart_tx hw
      let hw := pbdrv_gpio_input p.uart_rx hw
      let hw := pbdrv_gpio_out_high p.uart_buf hw
      let hw := pbdrv_gpio_set_pull p.p5 PBDRV_GPIO_PULL_NONE hw
      let hw := pbdrv_gpio_set_pull p.p6 PBDRV_GPIO_PULL_NONE hw
      let hw := pbdrv_gpio_set_pull p.uart_buf PBDRV_GPIO_PULL_NONE hw
      let hw := pbdrv_gpio_set_pull p.uart_tx PBDRV_GPIO_PULL_NONE hw
      let hw := pbdrv_gpio_set_pull p.uart_rx PBDRV_GPIO_PULL_NONE hw
      (PBIO_SUCCESS, hw)
  | PBDRV_IOPORT_P5P6_MODE_UART =>
    -- First reset all pins to inputs by going to GPIO mode recursively.
    let res := pbdrv_ioport_p5p6_set_mode pins PBDRV_IOPORT_P5P6_MODE_GPIO_ADC hw
    if res.1 ≠ PBIO_SUCCESS then
      (res.1, res.2)
    else
      match pins with
      | none => (res.1, res.2) -- not reached: the reset fails on a null group
      | some p =>
        -- Sets up alt mode and enables the buffer for UART use.
        let hw := pbdrv_gpio_alt p.uart_rx p.uart_rx_alt_uart res.2
        let hw := pbdrv_gpio_alt p.uart_tx p.uart_tx_alt_uart hw
        let hw := pbdrv_gpio_out_low p.uart_buf hw
        (PBIO_SUCCESS, hw)
  | PBDRV_IOPORT_P5P6_MODE_I2C =>
    -- First reset all pins to inputs by going to GPIO mode recursively.
    let res := pbdrv_ioport_p5p6_set_mode pins PBDRV_IOPORT_P5P6_MODE_GPIO_ADC hw
    if res.1 ≠ PBIO_SUCCESS then
      (res.1, res.2)
    else
      match pins with
      | none => (res.1, res.2) -- not reached: the reset fails on a null group
      | some p =>
        let hw := pbdrv_gpio_out_low p.p5 res.2
        let hw := pbdrv_gpio_input p.p5 hw
        let hw := pbdrv_gpio_out_low p.p6 hw
        let hw := pbdrv_gpio_input p.p6 hw
        (PBIO_SUCCESS, hw)
  | PBDRV_IOPORT_P5P6_MODE_QUADRATURE =>
    -- The mode of a quadrature port can never change: an error for all ports.
    (PBIO_ERROR_NOT_SUPPORTED, hw)
  | other _ => (PBIO_ERROR_NOT_SUPPORTED, hw)
termination_by mode.depth
decreasing_by
  all_goals simp [pbdrv_ioport_p5p6_mode_t.depth]

/-- What a run of GPIO calls does to one pin: for each of the two fields of its
configuration, the value written last, or nothing when the field is never
written. -/
structure PinWrite where
  func : Option PinFunction
  pull : Option pbdrv_gpio_pull_t

/-- The configuration of a pin after the writes of `w`. -/
def PinWrite.apply (w : PinWrite) (c : PinConfig) : PinConfig :=
  { func := w.func.getD c.func, pull := w.pull.getD c.pull }

/-- The writes of `w` followed by the writes of `v`. -/
def PinWrite.andThen (w v : PinWrite) : PinWrite :=
  { func := match v.func with
      | some f => some f
      | none => w.func
    pull := match v.pull with
      | some q => some q
      | none => w.pull }

/-- A hardware transformer that only overwrites fields of pin configurations
with values that do not depend on the configuration it starts from. -/
def WritesOnly (f : Gpio → Gpio) : Prop :=
  ∃ W : pbdrv_gpio_t → PinWrite, ∀ hw x, (f hw).cfg x = (W x).apply (hw.cfg x)

/-! ## Bluetooth simulation adapter -/

/-- A timer `pbio_os_timer_t`: start instant and duration, in milliseconds. -/
structure pbio_os_timer_t where
  start : Nat
  duration : Nat
  deriving DecidableEq, Repr

/-- Modelled from the spec: `pbio_os_timer_is_expired` is not in the sources at
hand. The timer is expired iff the current time is at or past start plus
duration. -/
def pbio_os_timer_is_expired (now : Nat) (timer : pbio_os_timer_t) : Bool :=
  decide (timer.start + timer.duration ≤ now)

/-- Modelled from the spec: `pbio_os_timer_extend` is not in the sources at
hand. The timer is rearmed with the same duration, starting now. -/
def pbio_os_timer_extend (now : Nat) (timer : pbio_os_timer_t) : pbio_os_timer_t :=
  { timer with start := now }

/-- Modelled from the spec: the one-byte header tag
`PBIO_PYBRICKS_COMMAND_WRITE_STDIN`, whose declaration is not in the sources at
hand. -/
def PBIO_PYBRICKS_COMMAND_WRITE_STDIN : Nat := 6

/-- `STDIN_HEADER_SIZE` of `bluetooth_simulation.c`. -/
def STDIN_HEADER_SIZE : Nat := 1

/-- Outcome of one `read` on standard input: the returned count `r` (negative
on error) and the bytes stored into the buffer. -/
structure StdinRead where
  r : Int
  data : List Nat
  deriving DecidableEq, Repr

/-- What the surroundings supply to one poll of the simulation process: the
clock, and what a `read` of at most `count` bytes from standard input gives. -/
structure PollEnv where
  now : Nat
  read : (count : Nat) → StdinRead

/-- The static variables of `bluetooth_simulation.c`.

`bluetooth_thread_polls` counts the polls that the nested
`pbdrv_bluetooth_process_thread` has received in its current invocation; it
stands for `bluetooth_thread_state` and for whatever else that thread keeps,
none of which is in the sources at hand. `received` logs the messages handed to
`pbdrv_bluetooth_receive_handler`, oldest first. -/
structure SimState where
  simulation_timer : pbio_os_timer_t
  bluetooth_thread_err : pbio_error_t
  bluetooth_thread_polls : Nat
  process_started : Bool
  received : List (List Nat)
  deriving DecidableEq, Repr

/-- The static variables as the C runtime initialises them. -/
def SimState.boot : SimState :=
  { simulation_timer := { start := 0, duration := 1 }
    bluetooth_thread_err := PBIO_SUCCESS
    bluetooth_thread_polls := 0
    process_started := false
    received := [] }

/-- `pbdrv_bluetooth_simulation_tick_handler`: read at most 256 bytes behind
the header byte and, when bytes arrived, hand header and bytes to the receive
handler. -/
def pbdrv_bluetooth_simulation_tick_handler (env : PollEnv) (s : SimState) : SimState :=
  let rd := env.read ((256 + STDIN_HEADER_SIZE) - STDIN_HEADER_SIZE)
  if rd.r > 0 then
    let buf := PBIO_PYBRICKS_COMMAND_WRITE_STDIN :: rd.data
    { s with received := s.received ++ [buf.take (rd.r.toNat + STDIN_HEADER_SIZE)] }
  else if rd.r = 0 then
    s -- EOF.
  else
    s -- No data available, or an error that is ignored.

/-- `pbdrv_bluetooth_simulation_process_thread`. The nested
`pbdrv_bluetooth_process_thread` is not in the sources at hand; it is a
parameter giving the status that its `k`-th poll (counted from 0) returns. -/
def pbdrv_bluetooth_simulation_process_thread
    (pbdrv_bluetooth_process_thread : Nat → pbio_error_t)
    (env : PollEnv) (s : SimState) : pbio_error_t × SimState :=
  let s :=
    if pbio_os_timer_is_expired env.now s.simulation_timer then
      pbdrv_bluetooth_simulation_tick_handler env
        { s with simulation_timer := pbio_os_timer_extend env.now s.simulation_timer }
    else
      s
  let s :=
    if s.bluetooth_thread_err = PBIO_ERROR_AGAIN then
      { s with
        bluetooth_thread_err := pbdrv_bluetooth_process_thread s.bluetooth_thread_polls
        bluetooth_thread_polls := s.bluetooth_thread_polls + 1 }
    else
      s
  (s.bluetooth_thread_err, s)

/-- `pbdrv_bluetooth_init_hci`. `tty_ok` says that the four terminal set-up
calls (`tcgetattr`, `tcsetattr`, twice `fcntl`) all succeeded; when one fails
the function returns before it touches the static variables. -/
def pbdrv_bluetooth_init_hci (tty_ok : Bool) (s : SimState) : SimState :=
  if tty_ok then
    { s with
      bluetooth_thread_err := PBIO_ERROR_AGAIN
      bluetooth_thread_polls := 0
      process_started := true }
  else
    s

/-- A run of consecutive polls of the simulation process, one per element of
`envs`: the statuses returned, in order, and the final state. -/
def simulation_polls (pbdrv_bluetooth_process_thread : Nat → pbio_error_t) :
    List PollEnv → SimState → List pbio_error_t × SimState
  | [], s => ([], s)
  | env :: envs, s =>
    let r := pbdrv_bluetooth_simulation_process_thread pbdrv_bluetooth_process_thread env s
    let rest := simulation_polls pbdrv_bluetooth_process_thread envs r.2
    (r.1 :: rest.1, rest.2)

/-! ## Inputs on which the functions are evaluated -/

/-- A pin group of five pins of one bank, with alternate functions 7 and 8. -/
def example_pins : pbdrv_ioport_pins_t :=
  { p5 := ⟨0, 1⟩, p6 := ⟨0, 2⟩, uart_buf := ⟨0, 3⟩, uart_tx := ⟨0, 4⟩, uart_rx := ⟨0, 5⟩
    uart_tx_alt_uart := 7, uart_rx_alt_uart := 8 }

/-- A hardware state with every pin in alternate function 3, pulled up, and an
empty call log. -/
def example_gpio : Gpio :=
  { cfg := fun _ => ⟨PinFunction.alt 3, PBDRV_GPIO_PULL_UP⟩, calls := [] }

/-- A poll environment at time `now` in which standard input has no data. -/
def example_env (now : Nat) : PollEnv :=
  { now := now, read := fun _ => { r := -1, data := [] } }

/-- A nested thread that asks to be polled again twice and then succeeds. -/
def example_thread (k : Nat) : pbio_error_t :=
  if k < 2 then PBIO_ERROR_AGAIN else PBIO_SUCCESS

/-- A poll environment at time `now` in which a `read` of standard input
returns the three bytes of "hi" and a carriage return. -/
def example_env_typing (now : Nat) : PollEnv :=
  { now := now, read := fun _ => { r := 3, data := [104, 105, 13] } }

/-! ## NXT platform: the Bluetooth connect process -/

/-- The fields of `pbio_os_process_t` that `platform/nxt/platform.c` touches:
the protothread state and the last status returned by the process thread. -/
structure pbio_os_process_t where
  state : Nat
  err : pbio_error_t
  deriving DecidableEq, Repr

/-- `nx_bt_is_ready` of `platform/nxt/platform.c`, applied to the static
`legacy_bluetooth_connect_process`: the answer, and the process afterwards. -/
def nx_bt_is_ready (legacy_bluetooth_connect_process : pbio_os_process_t) :
    Bool × pbio_os_process_t :=
  (decide (legacy_bluetooth_connect_process.err = PBIO_SUCCESS),
    legacy_bluetooth_connect_process)

/-! ## UART device object -/

/-- The field of `pb_type_uart_device_obj_t` set from the `timeout` argument, a
`uint32_t`. -/
structure pb_type_uart_device_obj_t where
  timeout : Nat
  deriving DecidableEq, Repr

/-- Modelled from the spec: `pb_assert`, which is not in the sources at hand,
raises the error it is given unless that is `PBIO_SUCCESS`. -/
def pb_assert (err : pbio_error_t) : Except pbio_error_t Unit :=
  if err = PBIO_SUCCESS then Except.ok () else Except.error err

/-- `pb_type_uart_device_make_new` of `pb_type_uart_device.c`.

`timeout_in` is `none` for `mp_const_none` and `some t` for an object on which
`pb_obj_get_int` gives the integer `t`. `port_err` and `uart_err` are the
statuses of `pbio_port_get_port` and `pbio_port_get_uart_dev`, which are not in
the sources at hand. The result is the error raised, or the object built. -/
def pb_type_uart_device_make_new (timeout_in : Option Int) (port_err uart_err : pbio_error_t) :
    Except pbio_error_t pb_type_uart_device_obj_t := do
  let timeout ←
    match timeout_in with
    | none =>
      -- In the uart driver implementation, 0 means no timeout.
      pure 0
    | some t => do
      if t < 1 then
        pb_assert PBIO_ERROR_INVALID_ARG
      -- conversion of `mp_int_t` to the `uint32_t` field
      pure (t % 4294967296).toNat
  pb_assert port_err
  pb_assert uart_err
  pure { timeout := timeout }

/-! ## Timer and scheduler -/

/-- Modelled from the spec: `start(duration)` of a Timer, which is not in the
sources at hand: it records the current instant and the given duration. -/
def pbio_os_timer_set (now : Nat) (duration : Nat) : pbio_os_timer_t :=
  { start := now, duration := duration }

/-- Modelled from the spec: a Process of the scheduler, which is not in the
sources at hand. `entry` gives the status that the `k`-th poll (counted from 0)
of the entry function returns, `polls` is the number of polls the process has
received (it stands for the state token), `status` is the last observed
status. -/
structure Process where
  entry : Nat → pbio_error_t
  polls : Nat
  status : pbio_error_t

/-- Modelled from the spec: `start(entry, context)` registers a new Process
with a fresh state token and status `AGAIN`, behind the processes registered
before. The registry is the list of processes in registration order. -/
def pbio_os_process_start (registry : List Process) (entry : Nat → pbio_error_t) :
    List Process :=
  registry ++ [{ entry := entry, polls := 0, status := PBIO_ERROR_AGAIN }]

/-- Modelled from the spec: `poll_all()` on the processes registered from
position `i` on. Each process whose last status is `AGAIN` is polled once and
the returned status stored. The result is the registry afterwards and the
positions of the processes polled, in the order of the polls. -/
def poll_all_from (i : Nat) : List Process → List Process × List Nat
  | [] => ([], [])
  | p :: ps =>
    if p.status = PBIO_ERROR_AGAIN then
      let p1 := { p with status := p.entry p.polls, polls := p.polls + 1 }
      let rest := poll_all_from (i + 1) ps
      (p1 :: rest.1, i :: rest.2)
    else
      let rest := poll_all_from (i + 1) ps
      (p :: rest.1, rest.2)

/-- Modelled from the spec: `poll_all()`, one tick of the scheduler. -/
def poll_all (registry : List Process) : List Process × List Nat :=
  poll_all_from 0 registry

/-- The registry after `n` ticks. -/
def ticks : Nat → List Process → List Process
  | 0, registry => registry
  | n + 1, registry => (poll_all (ticks n registry)).1

/-- Process A of the scenario: completes on its first poll. -/
def example_entry_a (_ : Nat) : pbio_error_t := PBIO_SUCCESS

/-- Process B of the scenario: completes on its second poll. -/
def example_entry_b (k : Nat) : pbio_error_t :=
  if k = 0 then PBIO_ERROR_AGAIN else PBIO_SUCCESS

/-- Process C of the scenario: never completes. -/
def example_entry_c (_ : Nat) : pbio_error_t := PBIO_ERROR_AGAIN

/-- The registry of the scenario: A, B and C registered in this order. -/
def example_registry : List Process :=
  pbio_os_process_start
    (pbio_os_process_start (pbio_os_process_start [] example_entry_a) example_entry_b)
    example_entry_c

/-! ## Hub HMI: the button protothreads of `sys/hmi.c` -/

/-- Values of `update_program_run_button_wait_state_pt`: 0 after `PT_INIT`, or
the line of the `PT_WAIT_UNTIL` at which the thread last stood. -/
inductive program_run_lc
  | lc_0
  | lc_52
  | lc_53
  | lc_54
  deriving DecidableEq, Repr

/-- Values of `update_bluetooth_button_wait_state_pt`. -/
inductive bluetooth_lc
  | lc_0
  | lc_84
  | lc_85
  deriving DecidableEq, Repr

/-- Values of `update_left_right_button_wait_state_pt`. -/
inductive left_right_lc
  | lc_0
  | lc_128
  | lc_131
  | lc_147
  deriving DecidableEq, Repr

/-- The request type passed to `pbsys_main_program_request_start`; `other`
stands for the enumerators that `hmi.c` does not use. -/
inductive pbsys_main_program_start_request_type_t
  | PBSYS_MAIN_PROGRAM_START_REQUEST_TYPE_HUB_UI
  | other (raw : Nat)
  deriving DecidableEq, Repr

/-- One call from the button threads into the rest of the system, as recorded
in the call log. -/
inductive HmiCall
  | pbsys_main_program_request_start (id : Nat)
      (type : pbsys_main_program_start_request_type_t)
  | pbsys_hub_light_matrix_update_program_slot
  | pbsys_storage_settings_bluetooth_enabled_request_toggle
  deriving DecidableEq, Repr

/-- Constants that `hmi.c` takes from headers that are not in the sources at
hand. -/
structure HmiConfig where
  PBSYS_CONFIG_BLUETOOTH_TOGGLE : Bool
  PBSYS_CONFIG_HMI_NUM_SLOTS : Nat
  PBIO_PYBRICKS_USER_PROGRAM_ID_PORT_VIEW : Nat
  deriving DecidableEq, Repr

/-- The static variables of `hmi.c`, the two status flags that `pbsys_hmi_poll`
writes, and the log of the calls made by the button threads, oldest first. -/
structure HmiState where
  update_program_run_button_wait_state_pt : program_run_lc
  update_bluetooth_button_wait_state_pt : bluetooth_lc
  update_left_right_button_wait_state_pt : left_right_lc
  selected_slot : Nat
  previous_slot : Nat
  first_press_time : Nat
  power_button_pressed : Bool
  shutdown_request : Bool
  calls : List HmiCall
  deriving DecidableEq, Repr

/-- The static variables as the C runtime initialises them. -/
def HmiState.boot : HmiState :=
  { update_program_run_button_wait_state_pt := program_run_lc.lc_0
    update_bluetooth_button_wait_state_pt := bluetooth_lc.lc_0
    update_left_right_button_wait_state_pt := left_right_lc.lc_0
    selected_slot := 0
    previous_slot := 0
    first_press_time := 0
    power_button_pressed := false
    shutdown_request := false
    calls := [] }

/-- What the surroundings supply to one `pbsys_hmi_poll`: the buttons pressed
(`bluetooth_button` is `btn & PBSYS_CONFIG_BLUETOOTH_TOGGLE_BUTTON`), the status
flag `PBIO_PYBRICKS_STATUS_USER_PROGRAM_RUNNING`, the answer of the two-second
debounce test of the power button, and the values that the two calls of
`pbdrv_clock_get_ms` in the left/right thread return. -/
structure HmiInput where
  center : Bool
  left : Bool
  right : Bool
  bluetooth_button : Bool
  user_program_running : Bool
  power_button_held : Bool
  clock_first_press : Nat
  clock_check : Nat
  deriving DecidableEq, Repr

/-- How a pass over the body of the `for (;;)` loop of a protothread ends: the
thread waits at a `PT_WAIT_UNTIL`, or it reached the end of the body and goes
round the loop. -/
inductive PtStep
  | waiting (s : HmiState)
  | again (s : HmiState)

/-- Subtraction of `uint32_t` values. -/
def uint32_sub (a b : Nat) : Nat :=
  (a % 4294967296 + 4294967296 - b % 4294967296) % 4294967296

/-- `update_program_run_button_wait_state` from line 54 to the end of the loop
body. -/
def program_run_from_54 (button_pressed : Bool) (s : HmiState) : PtStep :=
  let s := { s with update_program_run_button_wait_state_pt := program_run_lc.lc_54 }
  if !button_pressed then
    PtStep.again { s with
      calls := s.calls ++ [HmiCall.pbsys_main_program_request_start s.selected_slot
        pbsys_main_program_start_request_type_t.PBSYS_MAIN_PROGRAM_START_REQUEST_TYPE_HUB_UI] }
  else
    PtStep.waiting s

/-- `update_program_run_button_wait_state` from line 53 on. -/
def program_run_from_53 (button_pressed : Bool) (s : HmiState) : PtStep :=
  let s := { s with update_program_run_button_wait_state_pt := program_run_lc.lc_53 }
  if button_pressed then program_run_from_54 button_pressed s else PtStep.waiting s

/-- `update_program_run_button_wait_state` from line 52, the top of the loop
body, on. -/
def program_run_from_52 (button_pressed : Bool) (s : HmiState) : PtStep :=
  let s := { s with update_program_run_button_wait_state_pt := program_run_lc.lc_52 }
  if !button_pressed then program_run_from_53 button_pressed s else PtStep.waiting s

/-- One pass over the loop body of `update_program_run_button_wait_state`,
entered where `PT_BEGIN` jumps to for the value `entry` of the thread state. -/
def program_run_body (button_pressed : Bool) (entry : program_run_lc) (s : HmiState) :
    PtStep :=
  match entry with
  | program_run_lc.lc_0 => program_run_from_52 button_pressed s
  | program_run_lc.lc_52 => program_run_from_52 button_pressed s
  | program_run_lc.lc_53 => program_run_from_53 button_pressed s
  | program_run_lc.lc_54 => program_run_from_54 button_pressed s

/-- The `for (;;)` loop of `update_program_run_button_wait_state`, run until
the thread waits. -/
def program_run_loop (button_pressed : Bool) (entry : program_run_lc) (s : HmiState) :
    HmiState :=
  match _h : program_run_body button_pressed entry s with
  | PtStep.waiting s1 => s1
  | PtStep.again s1 => program_run_loop button_pressed program_run_lc.lc_52 s1
termination_by (if entry = program_run_lc.lc_54 then 1 else 0)
decreasing_by
  have hentry : entry = program_run_lc.lc_54 := by
    cases entry <;> cases button_pressed <;>
      simp [program_run_body, program_run_from_52, program_run_from_53,
        program_run_from_54] at _h ⊢
  simp [hentry]

/-- `update_program_run_button_wait_state`; `user_program_running` is the
answer of `pbsys_status_test(PBIO_PYBRICKS_STATUS_USER_PROGRAM_RUNNING)`. -/
def update_program_run_button_wait_state (user_program_running : Bool)
    (button_pressed : Bool) (s : HmiState) : HmiState :=
  -- This should not be active while a program is running.
  if user_program_running then
    { s with update_program_run_button_wait_state_pt := program_run_lc.lc_0 }
  else
    program_run_loop button_pressed s.update_program_run_button_wait_state_pt s

/-- `update_bluetooth_button_wait_state` from line 85 to the end of the loop
body. -/
def bluetooth_from_85 (button_pressed : Bool) (s : HmiState) : PtStep :=
  let s := { s with update_bluetooth_button_wait_state_pt := bluetooth_lc.lc_85 }
  if button_pressed then
    PtStep.again { s with
      calls := s.calls ++ [HmiCall.pbsys_storage_settings_bluetooth_enabled_request_toggle] }
  else
    PtStep.waiting s

/-- `update_bluetooth_button_wait_state` from line 84, the top of the loop
body, on. -/
def bluetooth_from_84 (button_pressed : Bool) (s : HmiState) : PtStep :=
  let s := { s with update_bluetooth_button_wait_state_pt := bluetooth_lc.lc_84 }
  if !button_pressed then bluetooth_from_85 button_pressed s else PtStep.waiting s

/-- One pass over the loop body of `update_bluetooth_button_wait_state`. -/
def bluetooth_body (button_pressed : Bool) (entry : bluetooth_lc) (s : HmiState) : PtStep :=
  match entry with
  | bluetooth_lc.lc_0 => bluetooth_from_84 button_pressed s
  | bluetooth_lc.lc_84 => bluetooth_from_84 button_pressed s
  | bluetooth_lc.lc_85 => bluetooth_from_85 button_pressed s

/-- The `for (;;)` loop of `update_bluetooth_button_wait_state`, run until the
thread waits. -/
def bluetooth_loop (button_pressed : Bool) (entry : bluetooth_lc) (s : HmiState) : HmiState :=
  match _h : bluetooth_body button_pressed entry s with
  | PtStep.waiting s1 => s1
  | PtStep.again s1 => bluetooth_loop button_pressed bluetooth_lc.lc_84 s1
termination_by (if entry = bluetooth_lc.lc_85 then 1 else 0)
decreasing_by
  have hentry : entry = bluetooth_lc.lc_85 := by
    cases entry <;> cases button_pressed <;>
      simp [bluetooth_body, bluetooth_from_84, bluetooth_from_85] at _h ⊢
  simp [hentry]

/-- `update_bluetooth_button_wait_state`. -/
def update_bluetooth_button_wait_state (user_program_running : Bool)
    (button_pressed : Bool) (s : HmiState) : HmiState :=
  -- This should not be active while a program is running.
  if user_program_running then
    { s with update_bluetooth_button_wait_state_pt := bluetooth_lc.lc_0 }
  else
    bluetooth_loop button_pressed s.update_bluetooth_button_wait_state_pt s

/-- `update_left_right_button_wait_state` from line 147 to the end of the loop
body; `clock_check` is what `pbdrv_clock_get_ms` returns at line 151. -/
def left_right_from_147 (cfg : HmiConfig) (left_button_pressed right_button_pressed : Bool)
    (clock_check : Nat) (s : HmiState) : PtStep :=
  let s := { s with update_left_right_button_wait_state_pt := left_right_lc.lc_147 }
  if left_button_pressed = right_button_pressed then
    -- If both were pressed soon after another, user wanted to start port view,
    -- not switch programs, so revert slot change.
    if left_button_pressed ∧ uint32_sub clock_check s.first_press_time < 100 then
      PtStep.again { s with
        selected_slot := s.previous_slot
        calls := s.calls ++
          [HmiCall.pbsys_hub_light_matrix_update_program_slot,
           HmiCall.pbsys_main_program_request_start cfg.PBIO_PYBRICKS_USER_PROGRAM_ID_PORT_VIEW
            pbsys_main_program_start_request_type_t.PBSYS_MAIN_PROGRAM_START_REQUEST_TYPE_HUB_UI] }
    else
      -- Successful switch. And UI was already updated.
      PtStep.again { s with previous_slot := s.selected_slot }
  else
    PtStep.waiting s

/-- The slot change on a right press, lines 136 to 139. The guard keeps the
`uint8_t` increment from wrapping. -/
def left_right_increment (right_button_pressed : Bool) (s : HmiState) : HmiState :=
  if right_button_pressed ∧ s.selected_slot < 4 then
    { s with
      selected_slot := s.selected_slot + 1
      calls := s.calls ++ [HmiCall.pbsys_hub_light_matrix_update_program_slot] }
  else
    s

/-- The slot change on a left press, lines 141 to 144. The guard keeps the
`uint8_t` decrement from wrapping. -/
def left_right_decrement (left_button_pressed : Bool) (s : HmiState) : HmiState :=
  if left_button_pressed ∧ s.selected_slot > 0 then
    { s with
      selected_slot := s.selected_slot - 1
      calls := s.calls ++ [HmiCall.pbsys_hub_light_matrix_update_program_slot] }
  else
    s

/-- `update_left_right_button_wait_state` from line 131 on; `clock_first_press`
is what `pbdrv_clock_get_ms` returns at line 133. -/
def left_right_from_131 (cfg : HmiConfig) (left_button_pressed right_button_pressed : Bool)
    (clock_first_press clock_check : Nat) (s : HmiState) : PtStep :=
  let s := { s with update_left_right_button_wait_state_pt := left_right_lc.lc_131 }
  if left_button_pressed ∨ right_button_pressed then
    let s := { s with first_press_time := clock_first_press % 4294967296 }
    -- On right, increment slot when possible.
    let s := left_right_increment right_button_pressed s
    -- On left, decrement slot when possible.
    let s := left_right_decrement left_button_pressed s
    -- Next state could be either both pressed or both released.
    left_right_from_147 cfg left_button_pressed right_button_pressed clock_check s
  else
    PtStep.waiting s

/-- `update_left_right_button_wait_state` from line 128, the top of the loop
body, on. -/
def left_right_from_128 (cfg : HmiConfig) (left_button_pressed right_button_pressed : Bool)
    (clock_first_press clock_check : Nat) (s : HmiState) : PtStep :=
  let s := { s with update_left_right_button_wait_state_pt := left_right_lc.lc_128 }
  if !left_button_pressed ∧ !right_button_pressed then
    left_right_from_131 cfg left_button_pressed right_button_pressed clock_first_press
      clock_check s
  else
    PtStep.waiting s

/-- One pass over the loop body of `update_left_right_button_wait_state`. -/
def left_right_body (cfg : HmiConfig) (left_button_pressed right_button_pressed : Bool)
    (clock_first_press clock_check : Nat) (entry : left_right_lc) (s : HmiState) : PtStep :=
  match entry with
  | left_right_lc.lc_0 =>
    left_right_from_128 cfg left_button_pressed right_button_pressed clock_first_press
      clock_check s
  | left_right_lc.lc_128 =>
    left_right_from_128 cfg left_button_pressed right_button_pressed clock_first_press
      clock_check s
  | left_right_lc.lc_131 =>
    left_right_from_131 cfg left_button_pressed right_button_pressed clock_first_press
      clock_check s
  | left_right_lc.lc_147 =>
    left_right_from_147 cfg left_button_pressed right_button_pressed clock_check s

/-- The `for (;;)` loop of `update_left_right_button_wait_state`, run until the
thread waits. -/
def left_right_loop (cfg : HmiConfig) (left_button_pressed right_button_pressed : Bool)
    (clock_first_press clock_check : Nat) (entry : left_right_lc) (s : HmiState) : HmiState :=
  match _h : left_right_body cfg left_button_pressed right_button_pressed clock_first_press
      clock_check entry s with
  | PtStep.waiting s1 => s1
  | PtStep.again s1 =>
    left_right_loop cfg left_button_pressed right_button_pressed clock_first_press clock_check
      left_right_lc.lc_128 s1
termination_by
  (if entry = left_right_lc.lc_131 ∨ entry = left_right_lc.lc_147 then 1 else 0)
decreasing_by
  have hentry : entry = left_right_lc.lc_131 ∨ entry = left_right_lc.lc_147 := by
    cases entry <;> cases left_button_pressed <;> cases right_button_pressed <;>
      simp [left_right_body, left_right_from_128, left_right_from_131] at _h ⊢
  simp [hentry]

/-- `update_left_right_button_wait_state`. -/
def update_left_right_button_wait_state (cfg : HmiConfig) (user_program_running : Bool)
    (left_button_pressed right_button_pressed : Bool) (clock_first_press clock_check : Nat)
    (s : HmiState) : HmiState :=
  -- This should not be active while a program is running.
  if user_program_running then
    { s with update_left_right_button_wait_state_pt := left_right_lc.lc_0 }
  else
    left_right_loop cfg left_button_pressed right_button_pressed clock_first_press clock_check
      s.update_left_right_button_wait_state_pt s

/-- `pbsys_hmi_init`: the protothreads of the centre button and of the
Bluetooth button are reset; the status light and the light matrix are not part
of the state kept here. -/
def pbsys_hmi_init (cfg : HmiConfig) (s : HmiState) : HmiState :=
  let s := { s with update_program_run_button_wait_state_pt := program_run_lc.lc_0 }
  if cfg.PBSYS_CONFIG_BLUETOOTH_TOGGLE then
    { s with update_bluetooth_button_wait_state_pt := bluetooth_lc.lc_0 }
  else
    s

/-- `pbsys_hmi_poll`. -/
def pbsys_hmi_poll (cfg : HmiConfig) (inp : HmiInput) (s : HmiState) : HmiState :=
  let s :=
    if inp.center then
      let s := { s with power_button_pressed := true }
      let s := update_program_run_button_wait_state inp.user_program_running true s
      -- power off when button is held down for 2 seconds
      if inp.power_button_held then { s with shutdown_request := true } else s
    else
      let s := { s with power_button_pressed := false }
      update_program_run_button_wait_state inp.user_program_running false s
  let s :=
    if cfg.PBSYS_CONFIG_BLUETOOTH_TOGGLE then
      update_bluetooth_button_wait_state inp.user_program_running inp.bluetooth_button s
    else
      s
  let s :=
    if cfg.PBSYS_CONFIG_HMI_NUM_SLOTS ≠ 0 then
      update_left_right_button_wait_state cfg inp.user_program_running inp.left inp.right
        inp.clock_first_press inp.clock_check s
    else
      s
  s

/-- The HMI state before poll `k` (counted from 0) of a run of `pbsys_hmi_poll`
calls that starts in `s0`, poll `k` being given the input `inputs k`. -/
def hmi_states (cfg : HmiConfig) (inputs : Nat → HmiInput) (s0 : HmiState) : Nat → HmiState
  | 0 => s0
  | k + 1 => pbsys_hmi_poll cfg (inputs k) (hmi_states cfg inputs s0 k)

/-- The calls that `update_program_run_button_wait_state` makes on poll `k` of
such a run. -/
def program_run_calls (cfg : HmiConfig) (inputs : Nat → HmiInput) (s0 : HmiState) (k : Nat) :
    List HmiCall :=
  (update_program_run_button_wait_state (inputs k).user_program_running (inputs k).center
      (hmi_states cfg inputs s0 k)).calls.drop (hmi_states cfg inputs s0 k).calls.length

/-- The condition of line 151 at a poll of the left/right thread: the poll ends
a gesture with both buttons pressed less than 100 ms after the first press.
The thread either stood at line 147, with the first press on an earlier poll,
or stood at line 131 and sees both buttons pressed at once, so that the first
press is on this very poll. -/
def left_right_reverts (user_program_running left_button_pressed right_button_pressed : Bool)
    (clock_first_press clock_check : Nat) (s : HmiState) : Prop :=
  user_program_running = false ∧ left_button_pressed = true ∧ right_button_pressed = true ∧
    ((s.update_left_right_button_wait_state_pt = left_right_lc.lc_147 ∧
        uint32_sub clock_check s.first_press_time < 100) ∨
      (s.update_left_right_button_wait_state_pt = left_right_lc.lc_131 ∧
        uint32_sub clock_check (clock_first_press % 4294967296) < 100))

/-- A hub with five slots and no Bluetooth button. -/
def example_hmi_config : HmiConfig :=
  { PBSYS_CONFIG_BLUETOOTH_TOGGLE := false
    PBSYS_CONFIG_HMI_NUM_SLOTS := 5
    PBIO_PYBRICKS_USER_PROGRAM_ID_PORT_VIEW := 129 }

/-- A poll input at clock value `now` with the given left and right button
states and running flag; the centre button is not pressed. -/
def example_hmi_input (left right running : Bool) (now : Nat) : HmiInput :=
  { center := false, left := left, right := right, bluetooth_button := false
    user_program_running := running, power_button_held := false
    clock_first_press := now, clock_check := now }

/-- Six polls: nothing pressed; right pressed; right still pressed while a
program has started; nothing pressed, the program having ended; right pressed;
left and right pressed 50 ms later. Nothing is pressed afterwards. -/
def example_interrupted_gesture (k : Nat) : HmiInput :=
  match k with
  | 0 => example_hmi_input false false false 1000
  | 1 => example_hmi_input false true false 1010
  | 2 => example_hmi_input false true true 1020
  | 3 => example_hmi_input false false false 5000
  | 4 => example_hmi_input false true false 5010
  | 5 => example_hmi_input true true false 5060
  | _ => example_hmi_input false false false 6000

/-- The slot that was selected just before the first press of the left/right
gesture that is in progress before poll `k` of a run, and the selected slot
itself when no gesture is in progress. A gesture is in progress while the
left/right thread stands at line 147. -/
def gesture_start_slot (cfg : HmiConfig) (inputs : Nat → HmiInput) (s0 : HmiState) :
    Nat → Nat
  | 0 => s0.selected_slot
  | k + 1 =>
    if (hmi_states cfg inputs s0 (k + 1)).update_left_right_button_wait_state_pt =
        left_right_lc.lc_147 then
      gesture_start_slot cfg inputs s0 k
    else
      (hmi_states cfg inputs s0 (k + 1)).selected_slot

/-! ## Unfolding lemmas for `pbdrv_ioport_p5p6_set_mode` -/

theorem set_mode_gpio_adc_none (hw : Gpio) :
    pbdrv_ioport_p5p6_set_mode none PBDRV_IOPORT_P5P6_MODE_GPIO_ADC hw =
      (PBIO_ERROR_NOT_SUPPORTED, hw) := by
  simp only [pbdrv_ioport_p5p6_set_mode]

theorem set_mode_gpio_adc_some (p : pbdrv_ioport_pins_t) (hw : Gpio) :
    pbdrv_ioport_p5p6_set_mode (some p) PBDRV_IOPORT_P5P6_MODE_GPIO_ADC hw =
      (PBIO_SUCCESS,
        pbdrv_gpio_set_pull p.uart_rx PBDRV_GPIO_PULL_NONE
        (pbdrv_gpio_set_pull p.uart_tx PBDRV_GPIO_PULL_NONE
        (pbdrv_gpio_set_pull p.uart_buf PBDRV_GPIO_PULL_NONE
        (pbdrv_gpio_set_pull p.p6 PBDRV_GPIO_PULL_NONE
        (pbdrv_gpio_set_pull p.p5 PBDRV_GPIO_PULL_NONE
        (pbdrv_gpio_out_high p.uart_buf
        (pbdrv_gpio_input p.uart_rx
        (pbdrv_gpio_input p.uart_tx
        (pbdrv_gpio_input p.p6
        (pbdrv_gpio_input p.p5 hw)))))))))) := by
  simp only [pbdrv_ioport_p5p6_set_mode]

theorem set_mode_uart_none (hw : Gpio) :
    pbdrv_ioport_p5p6_set_mode none PBDRV_IOPORT_P5P6_MODE_UART hw =
      (PBIO_ERROR_NOT_SUPPORTED, hw) := by
  simp [pbdrv_ioport_p5p6_set_mode]

theorem set_mode_i2c_none (hw : Gpio) :
    pbdrv_ioport_p5p6_set_mode none PBDRV_IOPORT_P5P6_MODE_I2C hw =
      (PBIO_ERROR_NOT_SUPPORTED, hw) := by
  simp [pbdrv_ioport_p5p6_set_mode]

theorem set_mode_uart_some (p : pbdrv_ioport_pins_t) (hw : Gpio) :
    pbdrv_ioport_p5p6_set_mode (some p) PBDRV_IOPORT_P5P6_MODE_UART hw =
      (PBIO_SUCCESS,
        pbdrv_gpio_out_low p.uart_buf
        (pbdrv_gpio_alt p.uart_tx p.uart_tx_alt_uart
        (pbdrv_gpio_alt p.uart_rx p.uart_rx_alt_uart
          (pbdrv_ioport_p5p6_set_mode (some p) PBDRV_IOPORT_P5P6_MODE_GPIO_ADC hw).2))) := by
  conv_lhs => rw [pbdrv_ioport_p5p6_set_mode]
  simp [set_mode_gpio_adc_some]

theorem set_mode_i2c_some (p : pbdrv_ioport_pins_t) (hw : Gpio) :
    pbdrv_ioport_p5p6_set_mode (some p) PBDRV_IOPORT_P5P6_MODE_I2C hw =
      (PBIO_SUCCESS,
        pbdrv_gpio_input p.p6
        (pbdrv_gpio_out_low p.p6
        (pbdrv_gpio_input p.p5
        (pbdrv_gpio_out_low p.p5
          (pbdrv_ioport_p5p6_set_mode (some p) PBDRV_IOPORT_P5P6_MODE_GPIO_ADC hw).2)))) := by
  conv_lhs => rw [pbdrv_ioport_p5p6_set_mode]
  simp [set_mode_gpio_adc_some]

theorem set_mode_quadrature (pins : Option pbdrv_ioport_pins_t) (hw : Gpio) :
    pbdrv_ioport_p5p6_set_mode pins PBDRV_IOPORT_P5P6_MODE_QUADRATURE hw =
      (PBIO_ERROR_NOT_SUPPORTED, hw) := by
  simp only [pbdrv_ioport_p5p6_set_mode]

theorem set_mode_other (pins : Option pbdrv_ioport_pins_t) (raw : Nat) (hw : Gpio) :
    pbdrv_ioport_p5p6_set_mode pins (other raw) hw = (PBIO_ERROR_NOT_SUPPORTED, hw) := by
  simp only [pbdrv_ioport_p5p6_set_mode]

/-! ## Effect of the GPIO calls on one pin and on the log -/

theorem gpio_input_cfg (pin x : pbdrv_gpio_t) (hw : Gpio) :
    (pbdrv_gpio_input pin hw).cfg x =
      if x = pin then { hw.cfg x with func := PinFunction.input } else hw.cfg x := by
  by_cases h : x = pin <;> simp [pbdrv_gpio_input, Function.update_apply, h]

theorem gpio_out_high_cfg (pin x : pbdrv_gpio_t) (hw : Gpio) :
    (pbdrv_gpio_out_high pin hw).cfg x =
      if x = pin then { hw.cfg x with func := PinFunction.out_high } else hw.cfg x := by
  by_cases h : x = pin <;> simp [pbdrv_gpio_out_high, Function.update_apply, h]

theorem gpio_out_low_cfg (pin x : pbdrv_gpio_t) (hw : Gpio) :
    (pbdrv_gpio_out_low pin hw).cfg x =
      if x = pin then { hw.cfg x with func := PinFunction.out_low } else hw.cfg x := by
  by_cases h : x = pin <;> simp [pbdrv_gpio_out_low, Function.update_apply, h]

theorem gpio_alt_cfg (pin x : pbdrv_gpio_t) (fn : Nat) (hw : Gpio) :
    (pbdrv_gpio_alt pin fn hw).cfg x =
      if x = pin then { hw.cfg x with func := PinFunction.alt fn } else hw.cfg x := by
  by_cases h : x = pin <;> simp [pbdrv_gpio_alt, Function.update_apply, h]

theorem gpio_set_pull_cfg (pin x : pbdrv_gpio_t) (pull : pbdrv_gpio_pull_t) (hw : Gpio) :
    (pbdrv_gpio_set_pull pin pull hw).cfg x =
      if x = pin then { hw.cfg x with pull := pull } else hw.cfg x := by
  by_cases h : x = pin <;> simp [pbdrv_gpio_set_pull, Function.update_apply, h]

theorem set_mode_gpio_adc_calls (p : pbdrv_ioport_pins_t) (hw : Gpio) :
    (pbdrv_ioport_p5p6_set_mode (some p) PBDRV_IOPORT_P5P6_MODE_GPIO_ADC hw).2.calls =
      hw.calls ++
        [GpioCall.input p.p5, GpioCall.input p.p6, GpioCall.input p.uart_tx,
         GpioCall.input p.uart_rx, GpioCall.out_high p.uart_buf,
         GpioCall.set_pull p.p5 PBDRV_GPIO_PULL_NONE,
         GpioCall.set_pull p.p6 PBDRV_GPIO_PULL_NONE,
         GpioCall.set_pull p.uart_buf PBDRV_GPIO_PULL_NONE,
         GpioCall.set_pull p.uart_tx PBDRV_GPIO_PULL_NONE,
         GpioCall.set_pull p.uart_rx PBDRV_GPIO_PULL_NONE] := by
  simp [set_mode_gpio_adc_some, pbdrv_gpio_input, pbdrv_gpio_out_high, pbdrv_gpio_set_pull]

/-- Pin configuration after the GPIO/ADC reset of a group of five different
pins. -/
theorem set_mode_gpio_adc_cfg (p : pbdrv_ioport_pins_t) (hd : p.Distinct) (hw : Gpio) :
    let hw1 := (pbdrv_ioport_p5p6_set_mode (some p) PBDRV_IOPORT_P5P6_MODE_GPIO_ADC hw).2
    hw1.cfg p.p5 = ⟨PinFunction.input, PBDRV_GPIO_PULL_NONE⟩ ∧
    hw1.cfg p.p6 = ⟨PinFunction.input, PBDRV_GPIO_PULL_NONE⟩ ∧
    hw1.cfg p.uart_tx = ⟨PinFunction.input, PBDRV_GPIO_PULL_NONE⟩ ∧
    hw1.cfg p.uart_rx = ⟨PinFunction.input, PBDRV_GPIO_PULL_NONE⟩ ∧
    hw1.cfg p.uart_buf = ⟨PinFunction.out_high, PBDRV_GPIO_PULL_NONE⟩ := by
  simp only [pbdrv_ioport_pins_t.Distinct, List.nodup_cons, List.mem_cons, List.mem_singleton,
    not_or, List.not_mem_nil, not_false_eq_true, List.nodup_nil, and_true] at hd
  obtain ⟨⟨h1, h2, h3, h4⟩, ⟨h5, h6, h7⟩, ⟨h8, h9⟩, h10⟩ := hd
  simp only [set_mode_gpio_adc_some, gpio_input_cfg, gpio_out_high_cfg, gpio_set_pull_cfg]
  simp [h1, h2, h3, h4, h5, h6, h7, h8, h9, h10, Ne.symm h1, Ne.symm h2, Ne.symm h3, Ne.symm h4,
    Ne.symm h5, Ne.symm h6, Ne.symm h7, Ne.symm h8, Ne.symm h9, Ne.symm h10]

theorem set_mode_uart_calls (p : pbdrv_ioport_pins_t) (hw : Gpio) :
    (pbdrv_ioport_p5p6_set_mode (some p) PBDRV_IOPORT_P5P6_MODE_UART hw).2.calls =
      (pbdrv_ioport_p5p6_set_mode (some p) PBDRV_IOPORT_P5P6_MODE_GPIO_ADC hw).2.calls ++
        [GpioCall.alt p.uart_rx p.uart_rx_alt_uart, GpioCall.alt p.uart_tx p.uart_tx_alt_uart,
         GpioCall.out_low p.uart_buf] := by
  simp [set_mode_uart_some, pbdrv_gpio_alt, pbdrv_gpio_out_low]

theorem set_mode_i2c_calls (p : pbdrv_ioport_pins_t) (hw : Gpio) :
    (pbdrv_ioport_p5p6_set_mode (some p) PBDRV_IOPORT_P5P6_MODE_I2C hw).2.calls =
      (pbdrv_ioport_p5p6_set_mode (some p) PBDRV_IOPORT_P5P6_MODE_GPIO_ADC hw).2.calls ++
        [GpioCall.out_low p.p5, GpioCall.input p.p5, GpioCall.out_low p.p6,
         GpioCall.input p.p6] := by
  simp [set_mode_i2c_some, pbdrv_gpio_input, pbdrv_gpio_out_low]

/-- The five inequalities between the pins of a group of different pins, in
both directions. -/
theorem distinct_ne (p : pbdrv_ioport_pins_t) (hd : p.Distinct) :
    (p.p5 ≠ p.p6 ∧ p.p5 ≠ p.uart_buf ∧ p.p5 ≠ p.uart_tx ∧ p.p5 ≠ p.uart_rx ∧
      p.p6 ≠ p.uart_buf ∧ p.p6 ≠ p.uart_tx ∧ p.p6 ≠ p.uart_rx ∧
      p.uart_buf ≠ p.uart_tx ∧ p.uart_buf ≠ p.uart_rx ∧ p.uart_tx ≠ p.uart_rx) ∧
    (p.p6 ≠ p.p5 ∧ p.uart_buf ≠ p.p5 ∧ p.uart_tx ≠ p.p5 ∧ p.uart_rx ≠ p.p5 ∧
      p.uart_buf ≠ p.p6 ∧ p.uart_tx ≠ p.p6 ∧ p.uart_rx ≠ p.p6 ∧
      p.uart_tx ≠ p.uart_buf ∧ p.uart_rx ≠ p.uart_buf ∧ p.uart_rx ≠ p.uart_tx) := by
  simp only [pbdrv_ioport_pins_t.Distinct, List.nodup_cons, List.mem_cons, List.mem_singleton,
    not_or, List.not_mem_nil, not_false_eq_true, List.nodup_nil, and_true] at hd
  obtain ⟨⟨h1, h2, h3, h4⟩, ⟨h5, h6, h7⟩, ⟨h8, h9⟩, h10⟩ := hd
  exact ⟨⟨h1, h2, h3, h4, h5, h6, h7, h8, h9, h10⟩,
    ⟨Ne.symm h1, Ne.symm h2, Ne.symm h3, Ne.symm h4, Ne.symm h5, Ne.symm h6, Ne.symm h7,
      Ne.symm h8, Ne.symm h9, Ne.symm h10⟩⟩

/-- Pin configuration after switching a group of five different pins to UART. -/
theorem set_mode_uart_cfg (p : pbdrv_ioport_pins_t) (hd : p.Distinct) (hw : Gpio) :
    let hw1 := (pbdrv_ioport_p5p6_set_mode (some p) PBDRV_IOPORT_P5P6_MODE_UART hw).2
    hw1.cfg p.p5 = ⟨PinFunction.input, PBDRV_GPIO_PULL_NONE⟩ ∧
    hw1.cfg p.p6 = ⟨PinFunction.input, PBDRV_GPIO_PULL_NONE⟩ ∧
    hw1.cfg p.uart_tx = ⟨PinFunction.alt p.uart_tx_alt_uart, PBDRV_GPIO_PULL_NONE⟩ ∧
    hw1.cfg p.uart_rx = ⟨PinFunction.alt p.uart_rx_alt_uart, PBDRV_GPIO_PULL_NONE⟩ ∧
    hw1.cfg p.uart_buf = ⟨PinFunction.out_low, PBDRV_GPIO_PULL_NONE⟩ := by
  obtain ⟨⟨h1, h2, h3, h4, h5, h6, h7, h8, h9, h10⟩,
    ⟨g1, g2, g3, g4, g5, g6, g7, g8, g9, g10⟩⟩ := distinct_ne p hd
  obtain ⟨r1, r2, r3, r4, r5⟩ := set_mode_gpio_adc_cfg p hd hw
  simp only [set_mode_uart_some, gpio_alt_cfg, gpio_out_low_cfg]
  simp [h1, h2, h3, h4, h5, h6, h7, h8, h9, h10, g1, g2, g3, g4, g5, g6, g7, g8, g9, g10,
    r1, r2, r3, r4, r5]

/-- Pin configuration after switching a group of five different pins to I2C. -/
theorem set_mode_i2c_cfg (p : pbdrv_ioport_pins_t) (hd : p.Distinct) (hw : Gpio) :
    let hw1 := (pbdrv_ioport_p5p6_set_mode (some p) PBDRV_IOPORT_P5P6_MODE_I2C hw).2
    hw1.cfg p.p5 = ⟨PinFunction.input, PBDRV_GPIO_PULL_NONE⟩ ∧
    hw1.cfg p.p6 = ⟨PinFunction.input, PBDRV_GPIO_PULL_NONE⟩ ∧
    hw1.cfg p.uart_tx = ⟨PinFunction.input, PBDRV_GPIO_PULL_NONE⟩ ∧
    hw1.cfg p.uart_rx = ⟨PinFunction.input, PBDRV_GPIO_PULL_NONE⟩ ∧
    hw1.cfg p.uart_buf = ⟨PinFunction.out_high, PBDRV_GPIO_PULL_NONE⟩ := by
  obtain ⟨⟨h1, h2, h3, h4, h5, h6, h7, h8, h9, h10⟩,
    ⟨g1, g2, g3, g4, g5, g6, g7, g8, g9, g10⟩⟩ := distinct_ne p hd
  obtain ⟨r1, r2, r3, r4, r5⟩ := set_mode_gpio_adc_cfg p hd hw
  simp only [set_mode_i2c_some, gpio_input_cfg, gpio_out_low_cfg]
  simp [h1, h2, h3, h4, h5, h6, h7, h8, h9, h10, g1, g2, g3, g4, g5, g6, g7, g8, g9, g10,
    r1, r2, r3, r4, r5]

/-- The status returned depends on the pin group and the mode only. -/
theorem set_mode_status (pins : Option pbdrv_ioport_pins_t) (mode : pbdrv_ioport_p5p6_mode_t)
    (hw : Gpio) :
    (pbdrv_ioport_p5p6_set_mode pins mode hw).1 =
      if pins.isSome ∧ (mode = PBDRV_IOPORT_P5P6_MODE_GPIO_ADC ∨
          mode = PBDRV_IOPORT_P5P6_MODE_UART ∨ mode = PBDRV_IOPORT_P5P6_MODE_I2C)
      then PBIO_SUCCESS else PBIO_ERROR_NOT_SUPPORTED := by
  cases pins <;> cases mode <;>
    simp [set_mode_gpio_adc_none, set_mode_gpio_adc_some, set_mode_uart_none, set_mode_uart_some,
      set_mode_i2c_none, set_mode_i2c_some, set_mode_quadrature, set_mode_other]

/-! ## Runs of GPIO calls as last-write-wins updates -/

theorem PinWrite.apply_apply (w : PinWrite) (c : PinConfig) :
    w.apply (w.apply c) = w.apply c := by
  obtain ⟨f, q⟩ := w
  cases f <;> cases q <;> rfl

theorem PinWrite.apply_andThen (w v : PinWrite) (c : PinConfig) :
    (w.andThen v).apply c = v.apply (w.apply c) := by
  obtain ⟨f, q⟩ := w
  obtain ⟨g, r⟩ := v
  cases f <;> cases q <;> cases g <;> cases r <;> rfl

theorem WritesOnly.id : WritesOnly (fun hw => hw) :=
  ⟨fun _ => ⟨none, none⟩, fun _ _ => rfl⟩

theorem WritesOnly.comp {f g : Gpio → Gpio} (hf : WritesOnly f) (hg : WritesOnly g) :
    WritesOnly (g ∘ f) := by
  obtain ⟨F, hF⟩ := hf
  obtain ⟨G, hG⟩ := hg
  refine ⟨fun x => (F x).andThen (G x), fun hw x => ?_⟩
  rw [Function.comp_apply, hG, hF, PinWrite.apply_andThen]

theorem WritesOnly.idem {f : Gpio → Gpio} (hf : WritesOnly f) (hw : Gpio) :
    (f (f hw)).cfg = (f hw).cfg := by
  obtain ⟨F, hF⟩ := hf
  funext x
  rw [hF (f hw) x, hF hw x, PinWrite.apply_apply]

theorem writesOnly_input (pin : pbdrv_gpio_t) : WritesOnly (pbdrv_gpio_input pin) := by
  refine ⟨fun x => if x = pin then ⟨some PinFunction.input, none⟩ else ⟨none, none⟩,
    fun hw x => ?_⟩
  rw [gpio_input_cfg]
  by_cases h : x = pin <;> simp [h, PinWrite.apply]

theorem writesOnly_out_high (pin : pbdrv_gpio_t) : WritesOnly (pbdrv_gpio_out_high pin) := by
  refine ⟨fun x => if x = pin then ⟨some PinFunction.out_high, none⟩ else ⟨none, none⟩,
    fun hw x => ?_⟩
  rw [gpio_out_high_cfg]
  by_cases h : x = pin <;> simp [h, PinWrite.apply]

theorem writesOnly_out_low (pin : pbdrv_gpio_t) : WritesOnly (pbdrv_gpio_out_low pin) := by
  refine ⟨fun x => if x = pin then ⟨some PinFunction.out_low, none⟩ else ⟨none, none⟩,
    fun hw x => ?_⟩
  rw [gpio_out_low_cfg]
  by_cases h : x = pin <;> simp [h, PinWrite.apply]

theorem writesOnly_alt (pin : pbdrv_gpio_t) (fn : Nat) : WritesOnly (pbdrv_gpio_alt pin fn) := by
  refine ⟨fun x => if x = pin then ⟨some (PinFunction.alt fn), none⟩ else ⟨none, none⟩,
    fun hw x => ?_⟩
  rw [gpio_alt_cfg]
  by_cases h : x = pin <;> simp [h, PinWrite.apply]

theorem writesOnly_set_pull (pin : pbdrv_gpio_t) (pull : pbdrv_gpio_pull_t) :
    WritesOnly (pbdrv_gpio_set_pull pin pull) := by
  refine ⟨fun x => if x = pin then ⟨none, some pull⟩ else ⟨none, none⟩, fun hw x => ?_⟩
  rw [gpio_set_pull_cfg]
  by_cases h : x = pin <;> simp [h, PinWrite.apply]

theorem writesOnly_gpio_adc (p : pbdrv_ioport_pins_t) :
    WritesOnly (fun hw =>
      (pbdrv_ioport_p5p6_set_mode (some p) PBDRV_IOPORT_P5P6_MODE_GPIO_ADC hw).2) := by
  have h : (fun hw =>
      (pbdrv_ioport_p5p6_set_mode (some p) PBDRV_IOPORT_P5P6_MODE_GPIO_ADC hw).2) =
      pbdrv_gpio_set_pull p.uart_rx PBDRV_GPIO_PULL_NONE ∘
      pbdrv_gpio_set_pull p.uart_tx PBDRV_GPIO_PULL_NONE ∘
      pbdrv_gpio_set_pull p.uart_buf PBDRV_GPIO_PULL_NONE ∘
      pbdrv_gpio_set_pull p.p6 PBDRV_GPIO_PULL_NONE ∘
      pbdrv_gpio_set_pull p.p5 PBDRV_GPIO_PULL_NONE ∘
      pbdrv_gpio_out_high p.uart_buf ∘
      pbdrv_gpio_input p.uart_rx ∘
      pbdrv_gpio_input p.uart_tx ∘
      pbdrv_gpio_input p.p6 ∘
      pbdrv_gpio_input p.p5 := by
    funext hw
    simp only [set_mode_gpio_adc_some, Function.comp_apply]
  rw [h]
  repeat first
    | exact writesOnly_input _
    | refine WritesOnly.comp ?_ (writesOnly_set_pull _ _)
    | refine WritesOnly.comp ?_ (writesOnly_out_high _)
    | refine WritesOnly.comp ?_ (writesOnly_input _)

/-- Whatever the pin group and the mode, `pbdrv_ioport_p5p6_set_mode` only
overwrites pin configuration fields with fixed values. -/
theorem writesOnly_set_mode (pins : Option pbdrv_ioport_pins_t)
    (mode : pbdrv_ioport_p5p6_mode_t) :
    WritesOnly (fun hw => (pbdrv_ioport_p5p6_set_mode pins mode hw).2) := by
  cases pins with
  | none =>
    cases mode <;>
      simpa [set_mode_gpio_adc_none, set_mode_uart_none, set_mode_i2c_none,
        set_mode_quadrature, set_mode_other] using WritesOnly.id
  | some p =>
    cases mode with
    | PBDRV_IOPORT_P5P6_MODE_GPIO_ADC => exact writesOnly_gpio_adc p
    | PBDRV_IOPORT_P5P6_MODE_UART =>
      have h : (fun hw =>
          (pbdrv_ioport_p5p6_set_mode (some p) PBDRV_IOPORT_P5P6_MODE_UART hw).2) =
          pbdrv_gpio_out_low p.uart_buf ∘
          pbdrv_gpio_alt p.uart_tx p.uart_tx_alt_uart ∘
          pbdrv_gpio_alt p.uart_rx p.uart_rx_alt_uart ∘
          (fun hw =>
            (pbdrv_ioport_p5p6_set_mode (some p) PBDRV_IOPORT_P5P6_MODE_GPIO_ADC hw).2) := by
        funext hw
        simp only [set_mode_uart_some, Function.comp_apply]
      rw [h]
      exact WritesOnly.comp (WritesOnly.comp (WritesOnly.comp (writesOnly_gpio_adc p)
        (writesOnly_alt _ _)) (writesOnly_alt _ _)) (writesOnly_out_low _)
    | PBDRV_IOPORT_P5P6_MODE_I2C =>
      have h : (fun hw =>
          (pbdrv_ioport_p5p6_set_mode (some p) PBDRV_IOPORT_P5P6_MODE_I2C hw).2) =
          pbdrv_gpio_input p.p6 ∘
          pbdrv_gpio_out_low p.p6 ∘
          pbdrv_gpio_input p.p5 ∘
          pbdrv_gpio_out_low p.p5 ∘
          (fun hw =>
            (pbdrv_ioport_p5p6_set_mode (some p) PBDRV_IOPORT_P5P6_MODE_GPIO_ADC hw).2) := by
        funext hw
        simp only [set_mode_i2c_some, Function.comp_apply]
      rw [h]
      exact WritesOnly.comp (WritesOnly.comp (WritesOnly.comp (WritesOnly.comp
        (writesOnly_gpio_adc p) (writesOnly_out_low _)) (writesOnly_input _))
        (writesOnly_out_low _)) (writesOnly_input _)
    | PBDRV_IOPORT_P5P6_MODE_QUADRATURE =>
      simpa [set_mode_quadrature] using WritesOnly.id
    | other raw =>
      simpa [set_mode_other] using WritesOnly.id

/-! ## Port mode: the properties -/

/-- C1: in `pbdrv_ioport_p5p6_set_mode(pins, UART)` on a non-null pin group the
whole GPIO/ADC reset comes before any alternate function. The calls made are
the calls of the reset followed by `alt uart_rx`, `alt uart_tx`,
`out_low uart_buf`; the reset part holds no `pbdrv_gpio_alt` call, and it holds
an `input` call and a `set_pull PBDRV_GPIO_PULL_NONE` call for each of uart_rx,
uart_tx, p5 and p6. -/
theorem set_mode_uart_resets_before_alt (p : pbdrv_ioport_pins_t) (hw : Gpio) :
    ∃ reset : List GpioCall,
      (pbdrv_ioport_p5p6_set_mode (some p) PBDRV_IOPORT_P5P6_MODE_GPIO_ADC hw).2.calls =
        hw.calls ++ reset ∧
      (pbdrv_ioport_p5p6_set_mode (some p) PBDRV_IOPORT_P5P6_MODE_UART hw).2.calls =
        hw.calls ++ reset ++
          [GpioCall.alt p.uart_rx p.uart_rx_alt_uart, GpioCall.alt p.uart_tx p.uart_tx_alt_uart,
           GpioCall.out_low p.uart_buf] ∧
      (∀ pin fn, GpioCall.alt pin fn ∉ reset) ∧
      (∀ x ∈ [p.uart_rx, p.uart_tx, p.p5, p.p6],
        GpioCall.input x ∈ reset ∧ GpioCall.set_pull x PBDRV_GPIO_PULL_NONE ∈ reset) := by
  refine ⟨_, set_mode_gpio_adc_calls p hw, ?_, ?_, ?_⟩
  · rw [set_mode_uart_calls, set_mode_gpio_adc_calls]
  · intro pin fn
    simp
  · intro x hx
    simp only [List.mem_cons, List.mem_singleton, List.not_mem_nil, or_false] at hx
    rcases hx with h | h | h | h <;> subst h <;> simp

/-- C2: `pbdrv_ioport_p5p6_set_mode(pins, GPIO_ADC)` on a pin group of five
different pins returns `PBIO_SUCCESS`, leaves p5, p6, uart_tx and uart_rx as
inputs, all five pulls at `PBDRV_GPIO_PULL_NONE` and uart_buf driven high; the
configuration of the five pins afterwards is the same from every state. -/
theorem set_mode_gpio_adc_resets_pins (p : pbdrv_ioport_pins_t) (hd : p.Distinct) (hw : Gpio) :
    (pbdrv_ioport_p5p6_set_mode (some p) PBDRV_IOPORT_P5P6_MODE_GPIO_ADC hw).1 = PBIO_SUCCESS ∧
    (pbdrv_ioport_p5p6_set_mode (some p) PBDRV_IOPORT_P5P6_MODE_GPIO_ADC hw).2.cfg p.p5 =
      ⟨PinFunction.input, PBDRV_GPIO_PULL_NONE⟩ ∧
    (pbdrv_ioport_p5p6_set_mode (some p) PBDRV_IOPORT_P5P6_MODE_GPIO_ADC hw).2.cfg p.p6 =
      ⟨PinFunction.input, PBDRV_GPIO_PULL_NONE⟩ ∧
    (pbdrv_ioport_p5p6_set_mode (some p) PBDRV_IOPORT_P5P6_MODE_GPIO_ADC hw).2.cfg p.uart_tx =
      ⟨PinFunction.input, PBDRV_GPIO_PULL_NONE⟩ ∧
    (pbdrv_ioport_p5p6_set_mode (some p) PBDRV_IOPORT_P5P6_MODE_GPIO_ADC hw).2.cfg p.uart_rx =
      ⟨PinFunction.input, PBDRV_GPIO_PULL_NONE⟩ ∧
    (pbdrv_ioport_p5p6_set_mode (some p) PBDRV_IOPORT_P5P6_MODE_GPIO_ADC hw).2.cfg p.uart_buf =
      ⟨PinFunction.out_high, PBDRV_GPIO_PULL_NONE⟩ ∧
    (∀ hw2 : Gpio, ∀ x ∈ [p.p5, p.p6, p.uart_tx, p.uart_rx, p.uart_buf],
      (pbdrv_ioport_p5p6_set_mode (some p) PBDRV_IOPORT_P5P6_MODE_GPIO_ADC hw2).2.cfg x =
        (pbdrv_ioport_p5p6_set_mode (some p) PBDRV_IOPORT_P5P6_MODE_GPIO_ADC hw).2.cfg x) := by
  obtain ⟨r1, r2, r3, r4, r5⟩ := set_mode_gpio_adc_cfg p hd hw
  refine ⟨by rw [set_mode_gpio_adc_some], r1, r2, r3, r4, r5, ?_⟩
  intro hw2 x hx
  obtain ⟨q1, q2, q3, q4, q5⟩ := set_mode_gpio_adc_cfg p hd hw2
  simp only [List.mem_cons, List.mem_singleton, List.not_mem_nil, or_false] at hx
  rcases hx with h | h | h | h | h <;> subst h
  · exact q1.trans r1.symm
  · exact q2.trans r2.symm
  · exact q3.trans r3.symm
  · exact q4.trans r4.symm
  · exact q5.trans r5.symm

/-- Witness of C2: the reset on the five pins of `example_pins`, started from
`example_gpio`, where every pin is in an alternate function with pull-up. -/
theorem set_mode_gpio_adc_resets_pins_witness :
    example_pins.Distinct ∧
    (pbdrv_ioport_p5p6_set_mode (some example_pins) PBDRV_IOPORT_P5P6_MODE_GPIO_ADC
      example_gpio).1 = PBIO_SUCCESS ∧
    (pbdrv_ioport_p5p6_set_mode (some example_pins) PBDRV_IOPORT_P5P6_MODE_GPIO_ADC
      example_gpio).2.cfg example_pins.p5 = ⟨PinFunction.input, PBDRV_GPIO_PULL_NONE⟩ ∧
    (pbdrv_ioport_p5p6_set_mode (some example_pins) PBDRV_IOPORT_P5P6_MODE_GPIO_ADC
      example_gpio).2.cfg example_pins.uart_buf = ⟨PinFunction.out_high, PBDRV_GPIO_PULL_NONE⟩ :=
  have h := set_mode_gpio_adc_resets_pins example_pins (by decide) example_gpio
  ⟨by decide, h.1, h.2.1, h.2.2.2.2.2.1⟩

/-- C3: `pbdrv_ioport_p5p6_set_mode(pins, UART)` on a pin group of five
different pins returns `PBIO_SUCCESS` and ends with uart_rx in alternate
function `uart_rx_alt_uart`, uart_tx in alternate function `uart_tx_alt_uart`,
uart_buf driven low, and p5 and p6 as the GPIO/ADC reset leaves them: input,
pull none. -/
theorem set_mode_uart_configures_pins (p : pbdrv_ioport_pins_t) (hd : p.Distinct)
    (hw : Gpio) :
    (pbdrv_ioport_p5p6_set_mode (some p) PBDRV_IOPORT_P5P6_MODE_UART hw).1 = PBIO_SUCCESS ∧
    ((pbdrv_ioport_p5p6_set_mode (some p) PBDRV_IOPORT_P5P6_MODE_UART hw).2.cfg p.uart_rx).func =
      PinFunction.alt p.uart_rx_alt_uart ∧
    ((pbdrv_ioport_p5p6_set_mode (some p) PBDRV_IOPORT_P5P6_MODE_UART hw).2.cfg p.uart_tx).func =
      PinFunction.alt p.uart_tx_alt_uart ∧
    ((pbdrv_ioport_p5p6_set_mode (some p) PBDRV_IOPORT_P5P6_MODE_UART hw).2.cfg p.uart_buf).func =
      PinFunction.out_low ∧
    (pbdrv_ioport_p5p6_set_mode (some p) PBDRV_IOPORT_P5P6_MODE_UART hw).2.cfg p.p5 =
      (pbdrv_ioport_p5p6_set_mode (some p) PBDRV_IOPORT_P5P6_MODE_GPIO_ADC hw).2.cfg p.p5 ∧
    (pbdrv_ioport_p5p6_set_mode (some p) PBDRV_IOPORT_P5P6_MODE_UART hw).2.cfg p.p6 =
      (pbdrv_ioport_p5p6_set_mode (some p) PBDRV_IOPORT_P5P6_MODE_GPIO_ADC hw).2.cfg p.p6 ∧
    (pbdrv_ioport_p5p6_set_mode (some p) PBDRV_IOPORT_P5P6_MODE_UART hw).2.cfg p.p5 =
      ⟨PinFunction.input, PBDRV_GPIO_PULL_NONE⟩ ∧
    (pbdrv_ioport_p5p6_set_mode (some p) PBDRV_IOPORT_P5P6_MODE_UART hw).2.cfg p.p6 =
      ⟨PinFunction.input, PBDRV_GPIO_PULL_NONE⟩ := by
  obtain ⟨r1, r2, r3, r4, r5⟩ := set_mode_gpio_adc_cfg p hd hw
  obtain ⟨u1, u2, u3, u4, u5⟩ := set_mode_uart_cfg p hd hw
  refine ⟨by rw [set_mode_uart_some], ?_, ?_, ?_, u1.trans r1.symm, u2.trans r2.symm, u1, u2⟩
  · rw [u4]
  · rw [u3]
  · rw [u5]

/-- Witness of C3: switching the five pins of `example_pins` to UART from
`example_gpio`. -/
theorem set_mode_uart_configures_pins_witness :
    example_pins.Distinct ∧
    (pbdrv_ioport_p5p6_set_mode (some example_pins) PBDRV_IOPORT_P5P6_MODE_UART
      example_gpio).1 = PBIO_SUCCESS ∧
    ((pbdrv_ioport_p5p6_set_mode (some example_pins) PBDRV_IOPORT_P5P6_MODE_UART
      example_gpio).2.cfg example_pins.uart_rx).func = PinFunction.alt 8 ∧
    ((pbdrv_ioport_p5p6_set_mode (some example_pins) PBDRV_IOPORT_P5P6_MODE_UART
      example_gpio).2.cfg example_pins.uart_buf).func = PinFunction.out_low :=
  have h := set_mode_uart_configures_pins example_pins (by decide) example_gpio
  ⟨by decide, h.1, h.2.1, h.2.2.2.1⟩

/-- C4: `pbdrv_ioport_p5p6_set_mode(pins, I2C)` on a pin group of five
different pins returns `PBIO_SUCCESS`; the calls it makes are exactly the calls
of the GPIO/ADC reset followed by drive p5 low, p5 input, drive p6 low, p6
input; p5 and p6 end as inputs with pull none, uart_tx and uart_rx end as
inputs, and uart_buf ends driven high. -/
theorem set_mode_i2c_sequence (p : pbdrv_ioport_pins_t) (hd : p.Distinct) (hw : Gpio) :
    (pbdrv_ioport_p5p6_set_mode (some p) PBDRV_IOPORT_P5P6_MODE_I2C hw).1 = PBIO_SUCCESS ∧
    (pbdrv_ioport_p5p6_set_mode (some p) PBDRV_IOPORT_P5P6_MODE_I2C hw).2.calls =
      (pbdrv_ioport_p5p6_set_mode (some p) PBDRV_IOPORT_P5P6_MODE_GPIO_ADC hw).2.calls ++
        [GpioCall.out_low p.p5, GpioCall.input p.p5, GpioCall.out_low p.p6,
         GpioCall.input p.p6] ∧
    (pbdrv_ioport_p5p6_set_mode (some p) PBDRV_IOPORT_P5P6_MODE_I2C hw).2.cfg p.p5 =
      ⟨PinFunction.input, PBDRV_GPIO_PULL_NONE⟩ ∧
    (pbdrv_ioport_p5p6_set_mode (some p) PBDRV_IOPORT_P5P6_MODE_I2C hw).2.cfg p.p6 =
      ⟨PinFunction.input, PBDRV_GPIO_PULL_NONE⟩ ∧
    ((pbdrv_ioport_p5p6_set_mode (some p) PBDRV_IOPORT_P5P6_MODE_I2C hw).2.cfg p.uart_tx).func =
      PinFunction.input ∧
    ((pbdrv_ioport_p5p6_set_mode (some p) PBDRV_IOPORT_P5P6_MODE_I2C hw).2.cfg p.uart_rx).func =
      PinFunction.input ∧
    ((pbdrv_ioport_p5p6_set_mode (some p) PBDRV_IOPORT_P5P6_MODE_I2C hw).2.cfg p.uart_buf).func =
      PinFunction.out_high := by
  obtain ⟨i1, i2, i3, i4, i5⟩ := set_mode_i2c_cfg p hd hw
  refine ⟨by rw [set_mode_i2c_some], set_mode_i2c_calls p hw, i1, i2, ?_, ?_, ?_⟩
  · rw [i3]
  · rw [i4]
  · rw [i5]

/-- Witness of C4: switching the five pins of `example_pins` to I2C from
`example_gpio`. -/
theorem set_mode_i2c_sequence_witness :
    example_pins.Distinct ∧
    (pbdrv_ioport_p5p6_set_mode (some example_pins) PBDRV_IOPORT_P5P6_MODE_I2C
      example_gpio).1 = PBIO_SUCCESS ∧
    (pbdrv_ioport_p5p6_set_mode (some example_pins) PBDRV_IOPORT_P5P6_MODE_I2C
      example_gpio).2.calls =
      (pbdrv_ioport_p5p6_set_mode (some example_pins) PBDRV_IOPORT_P5P6_MODE_GPIO_ADC
        example_gpio).2.calls ++
        [GpioCall.out_low example_pins.p5, GpioCall.input example_pins.p5,
         GpioCall.out_low example_pins.p6, GpioCall.input example_pins.p6] ∧
    (pbdrv_ioport_p5p6_set_mode (some example_pins) PBDRV_IOPORT_P5P6_MODE_I2C
      example_gpio).2.cfg example_pins.p5 = ⟨PinFunction.input, PBDRV_GPIO_PULL_NONE⟩ :=
  have h := set_mode_i2c_sequence example_pins (by decide) example_gpio
  ⟨by decide, h.1, h.2.1, h.2.2.1⟩

/-- C5: with a null pin group `pbdrv_ioport_p5p6_set_mode` returns
`PBIO_ERROR_NOT_SUPPORTED` for GPIO_ADC; for UART and I2C it returns the status
of the baseline reset, `PBIO_ERROR_NOT_SUPPORTED`, and the hardware, call log
included, is as before: no alternate-function or drive-low call is made. -/
theorem set_mode_null_pins_not_supported (hw : Gpio) :
    pbdrv_ioport_p5p6_set_mode none PBDRV_IOPORT_P5P6_MODE_GPIO_ADC hw =
      (PBIO_ERROR_NOT_SUPPORTED, hw) ∧
    pbdrv_ioport_p5p6_set_mode none PBDRV_IOPORT_P5P6_MODE_UART hw =
      (PBIO_ERROR_NOT_SUPPORTED, hw) ∧
    pbdrv_ioport_p5p6_set_mode none PBDRV_IOPORT_P5P6_MODE_I2C hw =
      (PBIO_ERROR_NOT_SUPPORTED, hw) ∧
    (pbdrv_ioport_p5p6_set_mode none PBDRV_IOPORT_P5P6_MODE_UART hw).1 =
      (pbdrv_ioport_p5p6_set_mode none PBDRV_IOPORT_P5P6_MODE_GPIO_ADC hw).1 ∧
    (pbdrv_ioport_p5p6_set_mode none PBDRV_IOPORT_P5P6_MODE_I2C hw).1 =
      (pbdrv_ioport_p5p6_set_mode none PBDRV_IOPORT_P5P6_MODE_GPIO_ADC hw).1 := by
  simp [set_mode_gpio_adc_none, set_mode_uart_none, set_mode_i2c_none]

/-- C6: `pbdrv_ioport_p5p6_set_mode` returns `PBIO_ERROR_NOT_SUPPORTED` for
mode QUADRATURE and for every mode value that is none of the four enumerators,
whatever the pin group and the pin state; it returns `PBIO_SUCCESS` if and only
if the pin group is non-null and the mode is GPIO_ADC, UART or I2C. -/
theorem set_mode_success_iff (pins : Option pbdrv_ioport_pins_t) (hw : Gpio) :
    (pbdrv_ioport_p5p6_set_mode pins PBDRV_IOPORT_P5P6_MODE_QUADRATURE hw).1 =
      PBIO_ERROR_NOT_SUPPORTED ∧
    (∀ raw, (pbdrv_ioport_p5p6_set_mode pins (other raw) hw).1 = PBIO_ERROR_NOT_SUPPORTED) ∧
    (∀ mode, (pbdrv_ioport_p5p6_set_mode pins mode hw).1 = PBIO_SUCCESS ↔
      (pins ≠ none ∧ (mode = PBDRV_IOPORT_P5P6_MODE_GPIO_ADC ∨
        mode = PBDRV_IOPORT_P5P6_MODE_UART ∨ mode = PBDRV_IOPORT_P5P6_MODE_I2C))) := by
  refine ⟨by rw [set_mode_quadrature], fun raw => by rw [set_mode_other], fun mode => ?_⟩
  rw [set_mode_status]
  cases pins <;> cases mode <;> simp

/-- C7: `pbdrv_ioport_p5p6_set_mode` is idempotent on the pin state: for every
pin group, mode and initial state, a second call right after the first returns
the same status and leaves every pin configured as the first call left it. -/
theorem set_mode_idempotent (pins : Option pbdrv_ioport_pins_t)
    (mode : pbdrv_ioport_p5p6_mode_t) (hw : Gpio) :
    (pbdrv_ioport_p5p6_set_mode pins mode
        (pbdrv_ioport_p5p6_set_mode pins mode hw).2).1 =
      (pbdrv_ioport_p5p6_set_mode pins mode hw).1 ∧
    (pbdrv_ioport_p5p6_set_mode pins mode
        (pbdrv_ioport_p5p6_set_mode pins mode hw).2).2.cfg =
      (pbdrv_ioport_p5p6_set_mode pins mode hw).2.cfg := by
  refine ⟨by rw [set_mode_status, set_mode_status], ?_⟩
  exact WritesOnly.idem (writesOnly_set_mode pins mode) hw

/-! ## Bluetooth simulation adapter: one poll -/

theorem tick_handler_keeps_thread (env : PollEnv) (s : SimState) :
    (pbdrv_bluetooth_simulation_tick_handler env s).bluetooth_thread_err =
      s.bluetooth_thread_err ∧
    (pbdrv_bluetooth_simulation_tick_handler env s).bluetooth_thread_polls =
      s.bluetooth_thread_polls := by
  simp only [pbdrv_bluetooth_simulation_tick_handler]
  split_ifs <;> simp

/-- One poll while the stored status is `PBIO_ERROR_AGAIN`: the nested thread
is polled and its status is stored and returned. -/
theorem process_thread_of_again (thread : Nat → pbio_error_t) (env : PollEnv) (s : SimState)
    (h : s.bluetooth_thread_err = PBIO_ERROR_AGAIN) :
    (pbdrv_bluetooth_simulation_process_thread thread env s).1 =
      thread s.bluetooth_thread_polls ∧
    (pbdrv_bluetooth_simulation_process_thread thread env s).2.bluetooth_thread_err =
      thread s.bluetooth_thread_polls ∧
    (pbdrv_bluetooth_simulation_process_thread thread env s).2.bluetooth_thread_polls =
      s.bluetooth_thread_polls + 1 := by
  obtain ⟨h1, h2⟩ := tick_handler_keeps_thread env
    { s with simulation_timer := pbio_os_timer_extend env.now s.simulation_timer }
  unfold pbdrv_bluetooth_simulation_process_thread
  split_ifs <;> simp_all

/-- One poll while the stored status is terminal: the nested thread is not
polled and the stored status is returned as it is. -/
theorem process_thread_of_done (thread : Nat → pbio_error_t) (env : PollEnv) (s : SimState)
    (h : s.bluetooth_thread_err ≠ PBIO_ERROR_AGAIN) :
    (pbdrv_bluetooth_simulation_process_thread thread env s).1 = s.bluetooth_thread_err ∧
    (pbdrv_bluetooth_simulation_process_thread thread env s).2.bluetooth_thread_err =
      s.bluetooth_thread_err ∧
    (pbdrv_bluetooth_simulation_process_thread thread env s).2.bluetooth_thread_polls =
      s.bluetooth_thread_polls := by
  obtain ⟨h1, h2⟩ := tick_handler_keeps_thread env
    { s with simulation_timer := pbio_os_timer_extend env.now s.simulation_timer }
  unfold pbdrv_bluetooth_simulation_process_thread
  split_ifs <;> simp_all

/-! ## Bluetooth simulation adapter: runs of polls -/

theorem simulation_polls_cons (thread : Nat → pbio_error_t) (env : PollEnv)
    (envs : List PollEnv) (s : SimState) :
    simulation_polls thread (env :: envs) s =
      ((pbdrv_bluetooth_simulation_process_thread thread env s).1 ::
        (simulation_polls thread envs
          (pbdrv_bluetooth_simulation_process_thread thread env s).2).1,
       (simulation_polls thread envs
          (pbdrv_bluetooth_simulation_process_thread thread env s).2).2) := rfl

/-- From a state with stored status `PBIO_ERROR_AGAIN`, if the next `m` polls of
the nested thread return `PBIO_ERROR_AGAIN`, then `m + 1` polls of the adapter
return `PBIO_ERROR_AGAIN` `m` times and then what the nested thread returns. -/
theorem simulation_polls_while_again (thread : Nat → pbio_error_t) (m : Nat) :
    ∀ (envs : List PollEnv) (s : SimState), envs.length = m + 1 →
      s.bluetooth_thread_err = PBIO_ERROR_AGAIN →
      (∀ k, k < m → thread (s.bluetooth_thread_polls + k) = PBIO_ERROR_AGAIN) →
      (simulation_polls thread envs s).1 =
        List.replicate m PBIO_ERROR_AGAIN ++ [thread (s.bluetooth_thread_polls + m)] ∧
      (simulation_polls thread envs s).2.bluetooth_thread_polls =
        s.bluetooth_thread_polls + m + 1 := by
  induction m with
  | zero =>
    intro envs s hlen hs _
    match envs, hlen with
    | [env], _ =>
      obtain ⟨h1, _, h3⟩ := process_thread_of_again thread env s hs
      simp [simulation_polls, h1, h3]
  | succ m ih =>
    intro envs s hlen hs hk
    match envs, hlen with
    | env :: envs, hlen =>
      obtain ⟨h1, h2, h3⟩ := process_thread_of_again thread env s hs
      have h0 : thread s.bluetooth_thread_polls = PBIO_ERROR_AGAIN := by
        simpa using hk 0 (Nat.succ_pos m)
      have hlen2 : envs.length = m + 1 := by simpa using hlen
      obtain ⟨g1, g2⟩ := ih envs (pbdrv_bluetooth_simulation_process_thread thread env s).2
        hlen2 (h2.trans h0) (fun k hk2 => by
          rw [h3, Nat.add_assoc, Nat.add_comm 1 k]
          exact hk (k + 1) (Nat.succ_lt_succ hk2))
      rw [simulation_polls_cons, g1, g2, h1, h0, h3]
      refine ⟨?_, by omega⟩
      simp only [List.replicate_succ, List.cons_append]
      rw [Nat.add_assoc, Nat.add_comm 1 m]

/-- Once the stored status is terminal, no later poll polls the nested thread
and every later poll returns the stored status. -/
theorem simulation_polls_after_done (thread : Nat → pbio_error_t) (envs : List PollEnv) :
    ∀ s : SimState, s.bluetooth_thread_err ≠ PBIO_ERROR_AGAIN →
      (simulation_polls thread envs s).2.bluetooth_thread_polls = s.bluetooth_thread_polls ∧
      (simulation_polls thread envs s).2.bluetooth_thread_err = s.bluetooth_thread_err ∧
      ∀ e ∈ (simulation_polls thread envs s).1, e = s.bluetooth_thread_err := by
  induction envs with
  | nil =>
    intro s _
    simp [simulation_polls]
  | cons env envs ih =>
    intro s hs
    obtain ⟨h1, h2, h3⟩ := process_thread_of_done thread env s hs
    obtain ⟨g1, g2, g3⟩ := ih (pbdrv_bluetooth_simulation_process_thread thread env s).2
      (by rw [h2]; exact hs)
    rw [simulation_polls_cons]
    refine ⟨by rw [g1, h3], by rw [g2, h2], ?_⟩
    intro e he
    rcases List.mem_cons.mp he with h | h
    · rw [h, h1]
    · rw [g3 e h, h2]

/-! ## Bluetooth simulation adapter: the properties -/

/-- C8: composition. From the state set by `pbdrv_bluetooth_init_hci` (stored
status `PBIO_ERROR_AGAIN`), if the nested thread returns `PBIO_ERROR_AGAIN` on
its first `n - 1` polls and `r` on its `n`-th poll, then `n` polls of
`pbdrv_bluetooth_simulation_process_thread` return `PBIO_ERROR_AGAIN` `n - 1`
times and then exactly `r`, and the nested thread has been polled `n` times. -/
theorem simulation_forwards_nested_result (thread : Nat → pbio_error_t) (n : Nat)
    (r : pbio_error_t) (envs : List PollEnv) (s : SimState)
    (hn : 1 ≤ n) (hlen : envs.length = n)
    (hagain : ∀ k, k + 1 < n → thread k = PBIO_ERROR_AGAIN)
    (hr : thread (n - 1) = r) :
    (simulation_polls thread envs (pbdrv_bluetooth_init_hci true s)).1 =
      List.replicate (n - 1) PBIO_ERROR_AGAIN ++ [r] ∧
    (simulation_polls thread envs
      (pbdrv_bluetooth_init_hci true s)).2.bluetooth_thread_polls = n := by
  obtain ⟨m, rfl⟩ : ∃ m, n = m + 1 := ⟨n - 1, by omega⟩
  have h := simulation_polls_while_again thread m envs (pbdrv_bluetooth_init_hci true s)
    hlen (by simp [pbdrv_bluetooth_init_hci])
    (fun k hk => by
      simpa [pbdrv_bluetooth_init_hci] using hagain k (Nat.succ_lt_succ hk))
  have hr2 : thread m = r := by simpa using hr
  simpa [pbdrv_bluetooth_init_hci, hr2] using h

/-- Witness of C8: a nested thread that completes on its third poll makes the
adapter complete on its third poll. -/
theorem simulation_forwards_nested_result_witness :
    1 ≤ 3 ∧
    (simulation_polls example_thread [example_env 0, example_env 1, example_env 2]
      (pbdrv_bluetooth_init_hci true SimState.boot)).1 =
      [PBIO_ERROR_AGAIN, PBIO_ERROR_AGAIN, PBIO_SUCCESS] :=
  ⟨by decide,
    (simulation_forwards_nested_result example_thread 3 PBIO_SUCCESS
      [example_env 0, example_env 1, example_env 2] SimState.boot (by decide) rfl
      (fun k hk => by
        have h2 : k < 2 := by omega
        simp [example_thread, h2])
      rfl).1⟩

theorem simulation_polls_length (thread : Nat → pbio_error_t) (envs : List PollEnv) :
    ∀ s : SimState, (simulation_polls thread envs s).1.length = envs.length := by
  induction envs with
  | nil =>
    intro s
    rfl
  | cons env envs ih =>
    intro s
    rw [simulation_polls_cons]
    simp [ih]

/-- From a state whose stored status is terminal, a run of polls returns that
status once per poll and leaves the poll count of the nested thread alone. -/
theorem simulation_polls_of_done (thread : Nat → pbio_error_t) (later : List PollEnv)
    (s : SimState) (h : s.bluetooth_thread_err ≠ PBIO_ERROR_AGAIN) :
    (simulation_polls thread later s).2.bluetooth_thread_polls = s.bluetooth_thread_polls ∧
    (simulation_polls thread later s).1 = List.replicate later.length s.bluetooth_thread_err := by
  obtain ⟨g1, _, g3⟩ := simulation_polls_after_done thread later s h
  exact ⟨g1, List.eq_replicate_iff.mpr ⟨simulation_polls_length thread later s, g3⟩⟩

/-- C9: on every poll of `pbdrv_bluetooth_simulation_process_thread` the nested
thread is polled exactly once, and its status stored and returned, if the
stored status was `PBIO_ERROR_AGAIN`; otherwise it is not polled, the stored
status is unchanged and it is what the poll returns. Hence from a state whose
stored status is terminal every run of later polls returns that same status on
each poll and never polls the nested thread; and when the nested thread returns
a terminal status on this poll, every run of polls after it returns that status
on each poll and leaves the nested thread at the one poll it got. -/
theorem simulation_polls_nested_iff_again (thread : Nat → pbio_error_t) (env : PollEnv)
    (s : SimState) :
    (if s.bluetooth_thread_err = PBIO_ERROR_AGAIN then
      (pbdrv_bluetooth_simulation_process_thread thread env s).2.bluetooth_thread_polls =
          s.bluetooth_thread_polls + 1 ∧
        (pbdrv_bluetooth_simulation_process_thread thread env s).2.bluetooth_thread_err =
          thread s.bluetooth_thread_polls ∧
        (pbdrv_bluetooth_simulation_process_thread thread env s).1 =
          thread s.bluetooth_thread_polls
    else
      (pbdrv_bluetooth_simulation_process_thread thread env s).2.bluetooth_thread_polls =
          s.bluetooth_thread_polls ∧
        (pbdrv_bluetooth_simulation_process_thread thread env s).2.bluetooth_thread_err =
          s.bluetooth_thread_err ∧
        (pbdrv_bluetooth_simulation_process_thread thread env s).1 = s.bluetooth_thread_err) ∧
    (∀ later : List PollEnv, s.bluetooth_thread_err ≠ PBIO_ERROR_AGAIN →
      (simulation_polls thread later s).2.bluetooth_thread_polls = s.bluetooth_thread_polls ∧
      (simulation_polls thread later s).1 =
        List.replicate later.length s.bluetooth_thread_err) ∧
    (∀ later : List PollEnv, s.bluetooth_thread_err = PBIO_ERROR_AGAIN →
      thread s.bluetooth_thread_polls ≠ PBIO_ERROR_AGAIN →
      (simulation_polls thread later
          (pbdrv_bluetooth_simulation_process_thread thread env s).2).2.bluetooth_thread_polls =
        s.bluetooth_thread_polls + 1 ∧
      (simulation_polls thread later
          (pbdrv_bluetooth_simulation_process_thread thread env s).2).1 =
        List.replicate later.length (thread s.bluetooth_thread_polls)) := by
  refine ⟨?_, fun later h => simulation_polls_of_done thread later s h, fun later h hterm => ?_⟩
  · split_ifs with h
    · exact ⟨(process_thread_of_again thread env s h).2.2,
        (process_thread_of_again thread env s h).2.1,
        (process_thread_of_again thread env s h).1⟩
    · exact ⟨(process_thread_of_done thread env s h).2.2,
        (process_thread_of_done thread env s h).2.1,
        (process_thread_of_done thread env s h).1⟩
  · obtain ⟨_, h2, h3⟩ := process_thread_of_again thread env s h
    have hdone : (pbdrv_bluetooth_simulation_process_thread thread env
        s).2.bluetooth_thread_err ≠ PBIO_ERROR_AGAIN := by
      rw [h2]
      exact hterm
    obtain ⟨g1, g2⟩ := simulation_polls_of_done thread later _ hdone
    rw [g1, g2, h2, h3]
    exact ⟨rfl, rfl⟩

/-- C11: `pbdrv_bluetooth_simulation_tick_handler` asks `read` for 256 bytes
and its effect depends on that read only. When the read yields `r > 0` bytes
`b`, the receive handler gets exactly one message, of length `r + 1`: the byte
`PBIO_PYBRICKS_COMMAND_WRITE_STDIN` followed by `b`. When the read yields 0 or
a negative value the receive handler is not invoked. Nothing else changes. -/
theorem tick_handler_forwards_stdin (env : PollEnv) (s : SimState) (r : Int) (b : List Nat)
    (hread : env.read 256 = { r := r, data := b })
    (hlen : 0 < r → (b.length : Int) = r) :
    (0 < r →
      (pbdrv_bluetooth_simulation_tick_handler env s).received =
          s.received ++ [PBIO_PYBRICKS_COMMAND_WRITE_STDIN :: b] ∧
        ((PBIO_PYBRICKS_COMMAND_WRITE_STDIN :: b).length : Int) = r + 1) ∧
    (r ≤ 0 → (pbdrv_bluetooth_simulation_tick_handler env s).received = s.received) ∧
    pbdrv_bluetooth_simulation_tick_handler env s =
      { s with received := (pbdrv_bluetooth_simulation_tick_handler env s).received } ∧
    (∀ env2 : PollEnv, env2.read 256 = env.read 256 →
      pbdrv_bluetooth_simulation_tick_handler env2 s =
        pbdrv_bluetooth_simulation_tick_handler env s) := by
  have h256 : 256 + STDIN_HEADER_SIZE - STDIN_HEADER_SIZE = 256 := rfl
  refine ⟨fun hr => ?_, fun hr => ?_, ?_, fun env2 h2 => ?_⟩
  · have hb := hlen hr
    have hn : r.toNat = b.length := by omega
    refine ⟨?_, by simp [hb]⟩
    simp only [pbdrv_bluetooth_simulation_tick_handler, h256, hread]
    rw [if_pos (by simpa using hr)]
    simp [hn, STDIN_HEADER_SIZE]
  · simp only [pbdrv_bluetooth_simulation_tick_handler, h256, hread]
    rw [if_neg (by simpa using hr)]
    split_ifs <;> rfl
  · simp only [pbdrv_bluetooth_simulation_tick_handler, h256, hread]
    split_ifs <;> rfl
  · simp only [pbdrv_bluetooth_simulation_tick_handler, h256, h2]

/-- Witness of C11: a read that yields the three bytes 104, 105, 13 hands the
message 6, 104, 105, 13 to the receive handler. -/
theorem tick_handler_forwards_stdin_witness :
    (example_env_typing 0).read 256 = { r := 3, data := [104, 105, 13] } ∧
    (pbdrv_bluetooth_simulation_tick_handler (example_env_typing 0) SimState.boot).received =
      [[6, 104, 105, 13]] :=
  ⟨rfl, ((tick_handler_forwards_stdin (example_env_typing 0) SimState.boot 3 [104, 105, 13]
    rfl (fun _ => rfl)).1 (by decide)).1⟩

/-! ## Port mode: the buffer-enable pin and failed calls -/

theorem gpio_input_func (pin x : pbdrv_gpio_t) (hw : Gpio) :
    ((pbdrv_gpio_input pin hw).cfg x).func =
      if x = pin then PinFunction.input else (hw.cfg x).func := by
  rw [gpio_input_cfg]
  split_ifs <;> rfl

theorem gpio_out_high_func (pin x : pbdrv_gpio_t) (hw : Gpio) :
    ((pbdrv_gpio_out_high pin hw).cfg x).func =
      if x = pin then PinFunction.out_high else (hw.cfg x).func := by
  rw [gpio_out_high_cfg]
  split_ifs <;> rfl

theorem gpio_set_pull_func (pin x : pbdrv_gpio_t) (pull : pbdrv_gpio_pull_t) (hw : Gpio) :
    ((pbdrv_gpio_set_pull pin pull hw).cfg x).func = (hw.cfg x).func := by
  rw [gpio_set_pull_cfg]
  split_ifs <;> rfl

/-- After the GPIO/ADC reset the buffer-enable pin is an output driven high,
whatever the pin group. -/
theorem set_mode_gpio_adc_buf_high (p : pbdrv_ioport_pins_t) (hw : Gpio) :
    ((pbdrv_ioport_p5p6_set_mode (some p) PBDRV_IOPORT_P5P6_MODE_GPIO_ADC hw).2.cfg
      p.uart_buf).func = PinFunction.out_high := by
  simp only [set_mode_gpio_adc_some, gpio_set_pull_func, gpio_out_high_func, if_true]

/-- After the GPIO/ADC reset every pin of the group other than the
buffer-enable pin is an input. -/
theorem set_mode_gpio_adc_data_input (p : pbdrv_ioport_pins_t) (hw : Gpio) (x : pbdrv_gpio_t)
    (hx : x ∈ [p.p5, p.p6, p.uart_tx, p.uart_rx]) (hne : x ≠ p.uart_buf) :
    ((pbdrv_ioport_p5p6_set_mode (some p) PBDRV_IOPORT_P5P6_MODE_GPIO_ADC hw).2.cfg x).func =
      PinFunction.input := by
  simp only [List.mem_cons, List.mem_singleton, List.not_mem_nil, or_false] at hx
  simp only [set_mode_gpio_adc_some, gpio_set_pull_func, gpio_out_high_func, gpio_input_func,
    if_neg hne]
  rcases hx with h | h | h | h <;> subst h <;> split_ifs <;> first | rfl | contradiction

/-- C13 fails as stated: after a successful GPIO/ADC reset of `example_pins`
the buffer-enable pin `uart_buf` is an output driven high, not an input. -/
theorem set_mode_gpio_adc_buf_not_input :
    (pbdrv_ioport_p5p6_set_mode (some example_pins) PBDRV_IOPORT_P5P6_MODE_GPIO_ADC
      example_gpio).1 = PBIO_SUCCESS ∧
    ((pbdrv_ioport_p5p6_set_mode (some example_pins) PBDRV_IOPORT_P5P6_MODE_GPIO_ADC
      example_gpio).2.cfg example_pins.uart_buf).func = PinFunction.out_high ∧
    ((pbdrv_ioport_p5p6_set_mode (some example_pins) PBDRV_IOPORT_P5P6_MODE_GPIO_ADC
      example_gpio).2.cfg example_pins.uart_buf).func ≠ PinFunction.input := by
  have h := set_mode_gpio_adc_buf_high example_pins example_gpio
  refine ⟨by rw [set_mode_gpio_adc_some], h, ?_⟩
  rw [h]
  decide

/-- C13, as the code has it: after a successful
`pbdrv_ioport_p5p6_set_mode(pins, GPIO_ADC)` the pins p5, p6, uart_tx and
uart_rx of the group are inputs, and the buffer-enable pin uart_buf is an output
driven high. -/
theorem set_mode_gpio_adc_inputs_and_buf_high (p : pbdrv_ioport_pins_t) (hw : Gpio) :
    (pbdrv_ioport_p5p6_set_mode (some p) PBDRV_IOPORT_P5P6_MODE_GPIO_ADC hw).1 = PBIO_SUCCESS ∧
    ((pbdrv_ioport_p5p6_set_mode (some p) PBDRV_IOPORT_P5P6_MODE_GPIO_ADC hw).2.cfg
      p.uart_buf).func = PinFunction.out_high ∧
    (∀ x ∈ [p.p5, p.p6, p.uart_tx, p.uart_rx], x ≠ p.uart_buf →
      ((pbdrv_ioport_p5p6_set_mode (some p) PBDRV_IOPORT_P5P6_MODE_GPIO_ADC hw).2.cfg x).func =
        PinFunction.input) :=
  ⟨by rw [set_mode_gpio_adc_some], set_mode_gpio_adc_buf_high p hw,
    fun x hx hne => set_mode_gpio_adc_data_input p hw x hx hne⟩

/-- C17: failure is atomic in `pbdrv_ioport_p5p6_set_mode`. Whenever the call
returns a status other than `PBIO_SUCCESS`, the hardware afterwards is the
hardware before: no pin configuration has changed and no GPIO call was made. -/
theorem set_mode_failure_atomic (pins : Option pbdrv_ioport_pins_t)
    (mode : pbdrv_ioport_p5p6_mode_t) (hw : Gpio)
    (hfail : (pbdrv_ioport_p5p6_set_mode pins mode hw).1 ≠ PBIO_SUCCESS) :
    (pbdrv_ioport_p5p6_set_mode pins mode hw).2 = hw := by
  cases pins with
  | none =>
    cases mode <;>
      simp [set_mode_gpio_adc_none, set_mode_uart_none, set_mode_i2c_none,
        set_mode_quadrature, set_mode_other]
  | some p =>
    cases mode with
    | PBDRV_IOPORT_P5P6_MODE_GPIO_ADC => simp [set_mode_gpio_adc_some] at hfail
    | PBDRV_IOPORT_P5P6_MODE_UART => simp [set_mode_uart_some] at hfail
    | PBDRV_IOPORT_P5P6_MODE_I2C => simp [set_mode_i2c_some] at hfail
    | PBDRV_IOPORT_P5P6_MODE_QUADRATURE => simp [set_mode_quadrature]
    | other raw => simp [set_mode_other]

/-- Witness of C17: a request for quadrature mode on the pins of
`example_pins` fails and leaves `example_gpio` as it was. -/
theorem set_mode_failure_atomic_witness :
    (pbdrv_ioport_p5p6_set_mode (some example_pins) PBDRV_IOPORT_P5P6_MODE_QUADRATURE
      example_gpio).1 ≠ PBIO_SUCCESS ∧
    (pbdrv_ioport_p5p6_set_mode (some example_pins) PBDRV_IOPORT_P5P6_MODE_QUADRATURE
      example_gpio).2 = example_gpio :=
  have h : (pbdrv_ioport_p5p6_set_mode (some example_pins) PBDRV_IOPORT_P5P6_MODE_QUADRATURE
      example_gpio).1 ≠ PBIO_SUCCESS := by
    rw [set_mode_quadrature]
    decide
  ⟨h, set_mode_failure_atomic (some example_pins) PBDRV_IOPORT_P5P6_MODE_QUADRATURE
    example_gpio h⟩

/-! ## NXT platform and UART device -/

/-- C14: `nx_bt_is_ready()` returns true if and only if the status stored in
`legacy_bluetooth_connect_process` is `PBIO_SUCCESS`; it returns false when that
status is `PBIO_ERROR_AGAIN` or any error, and it leaves the process as it
was. -/
theorem nx_bt_is_ready_iff_success (proc : pbio_os_process_t) :
    ((nx_bt_is_ready proc).1 = true ↔ proc.err = PBIO_SUCCESS) ∧
    (proc.err = PBIO_ERROR_AGAIN → (nx_bt_is_ready proc).1 = false) ∧
    (proc.err ≠ PBIO_SUCCESS → (nx_bt_is_ready proc).1 = false) ∧
    (nx_bt_is_ready proc).2 = proc := by
  refine ⟨by simp [nx_bt_is_ready], fun h => ?_, fun h => ?_, rfl⟩
  · simp [nx_bt_is_ready, h]
  · simp [nx_bt_is_ready, h]

theorem make_new_none (port_err uart_err : pbio_error_t) :
    pb_type_uart_device_make_new none port_err uart_err =
      if port_err ≠ PBIO_SUCCESS then Except.error port_err
      else if uart_err ≠ PBIO_SUCCESS then Except.error uart_err
      else Except.ok { timeout := 0 } := by
  cases port_err <;> cases uart_err <;> rfl

theorem make_new_some_lt (t : Int) (ht : t < 1) (port_err uart_err : pbio_error_t) :
    pb_type_uart_device_make_new (some t) port_err uart_err =
      Except.error PBIO_ERROR_INVALID_ARG := by
  simp only [pb_type_uart_device_make_new, if_pos ht]
  rfl

theorem make_new_some_ge (t : Int) (ht : ¬ t < 1) (port_err uart_err : pbio_error_t) :
    pb_type_uart_device_make_new (some t) port_err uart_err =
      if port_err ≠ PBIO_SUCCESS then Except.error port_err
      else if uart_err ≠ PBIO_SUCCESS then Except.error uart_err
      else Except.ok { timeout := (t % 4294967296).toNat } := by
  simp only [pb_type_uart_device_make_new, if_neg ht]
  cases port_err <;> cases uart_err <;> rfl

/-- What the timeout validation of `pb_type_uart_device_make_new` does
guarantee. With timeout None the stored timeout is 0; with an integer timeout
`1 ≤ t < 2^32` it is `t`; with an integer timeout below 1 construction fails
with `PBIO_ERROR_INVALID_ARG`, whatever the later steps would do. When the
later steps succeed, construction fails with `PBIO_ERROR_INVALID_ARG` if and
only if a timeout is given and is below 1, and a timeout given below `2^32`
never stores 0. -/
theorem uart_device_timeout_validation :
    pb_type_uart_device_make_new none PBIO_SUCCESS PBIO_SUCCESS = Except.ok { timeout := 0 } ∧
    (∀ t : Int, 1 ≤ t → t < 4294967296 →
      pb_type_uart_device_make_new (some t) PBIO_SUCCESS PBIO_SUCCESS =
        Except.ok { timeout := t.toNat }) ∧
    (∀ (t : Int) (port_err uart_err : pbio_error_t), t < 1 →
      pb_type_uart_device_make_new (some t) port_err uart_err =
        Except.error PBIO_ERROR_INVALID_ARG) ∧
    (∀ timeout_in : Option Int,
      pb_type_uart_device_make_new timeout_in PBIO_SUCCESS PBIO_SUCCESS =
          Except.error PBIO_ERROR_INVALID_ARG ↔
        ∃ t, timeout_in = some t ∧ t < 1) ∧
    (∀ (t : Int) (port_err uart_err : pbio_error_t), t < 4294967296 →
      pb_type_uart_device_make_new (some t) port_err uart_err ≠ Except.ok { timeout := 0 }) := by
  refine ⟨rfl, fun t h1 h2 => ?_, fun t pe ue ht => make_new_some_lt t ht pe ue,
    fun timeout_in => ?_, fun t pe ue h2 => ?_⟩
  · rw [make_new_some_ge t (by omega)]
    have h : t % 4294967296 = t := Int.emod_eq_of_lt (by omega) h2
    simp [h]
  · cases timeout_in with
    | none => simp [make_new_none]
    | some t =>
      by_cases ht : t < 1
      · simp [make_new_some_lt t ht, ht]
      · simp [make_new_some_ge t ht, ht]
  · by_cases ht : t < 1
    · simp [make_new_some_lt t ht]
    · rw [make_new_some_ge t ht]
      have h : t % 4294967296 = t := Int.emod_eq_of_lt (by omega) h2
      have h0 : t.toNat ≠ 0 := by omega
      split_ifs <;> simp [h, h0]

/-- C12 fails on the code where `mp_int_t` is wider than 32 bits. The
explicitly passed timeout 4294967296 is not below 1, so it passes the check of
line 53, and line 56 stores it in the `uint32_t` field as 0, the value that
stands for no timeout: an explicitly passed timeout does produce the stored
value 0. -/
theorem uart_device_timeout_wraps_to_zero :
    pb_type_uart_device_make_new (some 4294967296) PBIO_SUCCESS PBIO_SUCCESS =
      Except.ok { timeout := 0 } ∧
    ¬ (∀ (t : Int) (port_err uart_err : pbio_error_t),
      pb_type_uart_device_make_new (some t) port_err uart_err ≠ Except.ok { timeout := 0 }) := by
  have h : pb_type_uart_device_make_new (some 4294967296) PBIO_SUCCESS PBIO_SUCCESS =
      Except.ok { timeout := 0 } := by
    rw [make_new_some_ge 4294967296 (by decide)]
    rfl
  exact ⟨h, fun hall => hall 4294967296 PBIO_SUCCESS PBIO_SUCCESS h⟩

/-! ## Timer -/

/-- C16: timer expiry. For every start instant `now` and duration `d > 0`, a
timer started at `now` is not expired at `now`; it is expired at `t` exactly
when `t` is at or past `now + d`; after `extend` at instant `later` the duration
is still `d` and the timer is expired at `t` exactly when `t` is at or past
`later + d`; and a timer that is expired stays expired at every later time as
long as it is not started or extended: it never rearms on its own. The expiry
test is a function of clock and timer that returns only the answer. -/
theorem timer_expiry (now d : Nat) (hd : 0 < d) :
    pbio_os_timer_is_expired now (pbio_os_timer_set now d) = false ∧
    (∀ t, pbio_os_timer_is_expired t (pbio_os_timer_set now d) = true ↔ now + d ≤ t) ∧
    (∀ later, (pbio_os_timer_extend later (pbio_os_timer_set now d)).duration = d) ∧
    (∀ later t,
      pbio_os_timer_is_expired t (pbio_os_timer_extend later (pbio_os_timer_set now d)) = true ↔
        later + d ≤ t) ∧
    (∀ (timer : pbio_os_timer_t) (t t2 : Nat), t ≤ t2 →
      pbio_os_timer_is_expired t timer = true → pbio_os_timer_is_expired t2 timer = true) := by
  refine ⟨?_, fun t => ?_, fun later => rfl, fun later t => ?_, fun timer t t2 h12 h => ?_⟩
  · simp [pbio_os_timer_is_expired, pbio_os_timer_set]
    omega
  · simp [pbio_os_timer_is_expired, pbio_os_timer_set]
  · simp [pbio_os_timer_is_expired, pbio_os_timer_set, pbio_os_timer_extend]
  · simp only [pbio_os_timer_is_expired, decide_eq_true_eq] at h ⊢
    omega

/-- Witness of C16: a timer of 100 ms started at instant 5 is not expired at 5,
and is expired from 105 on. -/
theorem timer_expiry_witness :
    0 < 100 ∧
    pbio_os_timer_is_expired 5 (pbio_os_timer_set 5 100) = false ∧
    (pbio_os_timer_is_expired 105 (pbio_os_timer_set 5 100) = true ↔ 5 + 100 ≤ 105) :=
  ⟨by decide, (timer_expiry 5 100 (by decide)).1, (timer_expiry 5 100 (by decide)).2.1 105⟩

/-! ## Scheduler -/

theorem poll_all_from_registry (i : Nat) (ps : List Process) :
    (poll_all_from i ps).1 =
      ps.map (fun p =>
        if p.status = PBIO_ERROR_AGAIN then
          { p with status := p.entry p.polls, polls := p.polls + 1 }
        else p) := by
  induction ps generalizing i with
  | nil => rfl
  | cons p ps ih =>
    by_cases h : p.status = PBIO_ERROR_AGAIN
    · simp [poll_all_from, h, ih]
    · simp [poll_all_from, h, ih]

theorem poll_all_from_log (i : Nat) (ps : List Process) :
    (poll_all_from i ps).2.Pairwise (· < ·) ∧
    ∀ k, k ∈ (poll_all_from i ps).2 ↔
      (i ≤ k ∧ ∃ p, ps[k - i]? = some p ∧ p.status = PBIO_ERROR_AGAIN) := by
  induction ps generalizing i with
  | nil => simp [poll_all_from]
  | cons p ps ih =>
    obtain ⟨ih1, ih2⟩ := ih (i + 1)
    have hshift : ∀ k, i + 1 ≤ k → (p :: ps)[k - i]? = ps[k - (i + 1)]? := by
      intro k hk
      have : k - i = (k - (i + 1)) + 1 := by omega
      rw [this, List.getElem?_cons_succ]
    by_cases h : p.status = PBIO_ERROR_AGAIN
    · simp only [poll_all_from, h, if_true]
      refine ⟨List.pairwise_cons.mpr ⟨fun k hk => ?_, ih1⟩, fun k => ?_⟩
      · have := (ih2 k).mp hk
        omega
      · rw [List.mem_cons, ih2 k]
        constructor
        · rintro (rfl | ⟨hk, q, hq, hs⟩)
          · exact ⟨le_refl _, p, by simp, h⟩
          · exact ⟨by omega, q, by rw [hshift k hk]; exact hq, hs⟩
        · rintro ⟨hk, q, hq, hs⟩
          by_cases hki : k = i
          · exact Or.inl hki
          · have hk1 : i + 1 ≤ k := by omega
            exact Or.inr ⟨hk1, q, by rw [← hshift k hk1]; exact hq, hs⟩
    · simp only [poll_all_from, h, if_false]
      refine ⟨ih1, fun k => ?_⟩
      rw [ih2 k]
      constructor
      · rintro ⟨hk, q, hq, hs⟩
        exact ⟨by omega, q, by rw [hshift k hk]; exact hq, hs⟩
      · rintro ⟨hk, q, hq, hs⟩
        by_cases hki : k = i
        · subst hki
          simp at hq
          subst hq
          exact absurd hs h
        · have hk1 : i + 1 ≤ k := by omega
          exact ⟨hk1, q, by rw [← hshift k hk1]; exact hq, hs⟩

theorem ticks_getElem_succ (n : Nat) (registry : List Process) (i : Nat) :
    (ticks (n + 1) registry)[i]? =
      ((ticks n registry)[i]?).map (fun p =>
        if p.status = PBIO_ERROR_AGAIN then
          { p with status := p.entry p.polls, polls := p.polls + 1 }
        else p) := by
  simp [ticks, poll_all, poll_all_from_registry]

theorem ticks_terminal (n : Nat) (registry : List Process) (i : Nat) (p : Process)
    (hp : registry[i]? = some p) (hs : p.status ≠ PBIO_ERROR_AGAIN) :
    (ticks n registry)[i]? = some p := by
  induction n with
  | zero => exact hp
  | succ n ih => simp [ticks_getElem_succ, ih, hs]

theorem ticks_again (n : Nat) (registry : List Process) (i : Nat) (p : Process)
    (hp : registry[i]? = some p) (hs : p.status = PBIO_ERROR_AGAIN)
    (he : ∀ k, p.entry k = PBIO_ERROR_AGAIN) :
    (ticks n registry)[i]? = some { p with polls := p.polls + n } := by
  induction n with
  | zero => exact hp
  | succ n ih => simp [ticks_getElem_succ, ih, hs, he, Nat.add_assoc]

theorem ticks_example_registry (n : Nat) :
    ticks (n + 2) example_registry =
      [{ entry := example_entry_a, polls := 1, status := PBIO_SUCCESS },
       { entry := example_entry_b, polls := 2, status := PBIO_SUCCESS },
       { entry := example_entry_c, polls := n + 2, status := PBIO_ERROR_AGAIN }] := by
  induction n with
  | zero => rfl
  | succ n ih =>
    have h : ticks (n + 1 + 2) example_registry =
        (poll_all (ticks (n + 2) example_registry)).1 := rfl
    rw [h, ih]
    rfl

/-- C15: scheduler polling. In one tick the processes polled are exactly those
whose last status is `AGAIN`, each once, in registration order, and each has
the returned status stored; a process whose status is terminal is the same
after any number of ticks (it is never polled again); a process that always
returns `AGAIN` has received one poll per tick. For A, B, C registered in this
order, A completing on its first poll, B on its second and C never: after tick
1 the statuses are terminal, `AGAIN`, `AGAIN`; after tick 2 and after every
later tick they are terminal, terminal, `AGAIN`, and every tick after the
second polls C only. -/
theorem scheduler_polls_again_processes :
    (∀ registry : List Process,
      (poll_all registry).2.Pairwise (· < ·) ∧
      (∀ k, k ∈ (poll_all registry).2 ↔
        ∃ p, registry[k]? = some p ∧ p.status = PBIO_ERROR_AGAIN) ∧
      (poll_all registry).1 =
        registry.map (fun p =>
          if p.status = PBIO_ERROR_AGAIN then
            { p with status := p.entry p.polls, polls := p.polls + 1 }
          else p)) ∧
    (∀ (n : Nat) (registry : List Process) (i : Nat) (p : Process),
      registry[i]? = some p → p.status ≠ PBIO_ERROR_AGAIN →
        (ticks n registry)[i]? = some p) ∧
    (∀ (n : Nat) (registry : List Process) (i : Nat) (p : Process),
      registry[i]? = some p → p.status = PBIO_ERROR_AGAIN →
        (∀ k, p.entry k = PBIO_ERROR_AGAIN) →
        (ticks n registry)[i]? = some { p with polls := p.polls + n }) ∧
    (ticks 1 example_registry).map Process.status =
      [PBIO_SUCCESS, PBIO_ERROR_AGAIN, PBIO_ERROR_AGAIN] ∧
    (poll_all example_registry).2 = [0, 1, 2] ∧
    (poll_all (ticks 1 example_registry)).2 = [1, 2] ∧
    (∀ n, (ticks (n + 2) example_registry).map Process.status =
        [PBIO_SUCCESS, PBIO_SUCCESS, PBIO_ERROR_AGAIN] ∧
      (poll_all (ticks (n + 2) example_registry)).2 = [2]) := by
  refine ⟨fun registry => ⟨(poll_all_from_log 0 registry).1, fun k => ?_,
      poll_all_from_registry 0 registry⟩,
    ticks_terminal, ticks_again, rfl, rfl, rfl, fun n => ?_⟩
  · have h := (poll_all_from_log 0 registry).2 k
    simpa [poll_all] using h
  · rw [ticks_example_registry]
    exact ⟨rfl, rfl⟩

/-! ## Hub HMI: one poll of each button thread -/

theorem program_run_loop_eq (button_pressed : Bool) (entry : program_run_lc) (s : HmiState) :
    program_run_loop button_pressed entry s =
      match program_run_body button_pressed entry s with
      | PtStep.waiting s1 => s1
      | PtStep.again s1 =>
        match program_run_body button_pressed program_run_lc.lc_52 s1 with
        | PtStep.waiting s2 => s2
        | PtStep.again s2 => s2 := by
  rw [program_run_loop]
  split
  · rename_i s1 h
    simp [h]
  · rename_i s1 h
    simp only [h]
    rw [program_run_loop]
    split
    · rename_i s2 h2
      simp [h2]
    · rename_i s2 h2
      exfalso
      cases button_pressed <;>
        simp [program_run_body, program_run_from_52, program_run_from_53,
          program_run_from_54] at h2

theorem bluetooth_loop_eq (button_pressed : Bool) (entry : bluetooth_lc) (s : HmiState) :
    bluetooth_loop button_pressed entry s =
      match bluetooth_body button_pressed entry s with
      | PtStep.waiting s1 => s1
      | PtStep.again s1 =>
        match bluetooth_body button_pressed bluetooth_lc.lc_84 s1 with
        | PtStep.waiting s2 => s2
        | PtStep.again s2 => s2 := by
  rw [bluetooth_loop]
  split
  · rename_i s1 h
    simp [h]
  · rename_i s1 h
    simp only [h]
    rw [bluetooth_loop]
    split
    · rename_i s2 h2
      simp [h2]
    · rename_i s2 h2
      exfalso
      cases button_pressed <;>
        simp [bluetooth_body, bluetooth_from_84, bluetooth_from_85] at h2

theorem left_right_loop_eq (cfg : HmiConfig) (left_button_pressed right_button_pressed : Bool)
    (clock_first_press clock_check : Nat) (entry : left_right_lc) (s : HmiState) :
    left_right_loop cfg left_button_pressed right_button_pressed clock_first_press clock_check
        entry s =
      match left_right_body cfg left_button_pressed right_button_pressed clock_first_press
          clock_check entry s with
      | PtStep.waiting s1 => s1
      | PtStep.again s1 =>
        match left_right_body cfg left_button_pressed right_button_pressed clock_first_press
            clock_check left_right_lc.lc_128 s1 with
        | PtStep.waiting s2 => s2
        | PtStep.again s2 => s2 := by
  rw [left_right_loop]
  split
  · rename_i s1 h
    simp [h]
  · rename_i s1 h
    simp only [h]
    rw [left_right_loop]
    split
    · rename_i s2 h2
      simp [h2]
    · rename_i s2 h2
      exfalso
      cases left_button_pressed <;> cases right_button_pressed <;>
        simp [left_right_body, left_right_from_128, left_right_from_131] at h2

/-- One poll of the centre-button thread while no program runs, by the place
where the thread stood and the button state. -/
theorem program_run_poll (button_pressed : Bool) (s : HmiState) :
    update_program_run_button_wait_state false button_pressed s =
      match s.update_program_run_button_wait_state_pt, button_pressed with
      | program_run_lc.lc_54, false =>
        { s with
          update_program_run_button_wait_state_pt := program_run_lc.lc_53
          calls := s.calls ++ [HmiCall.pbsys_main_program_request_start s.selected_slot
            pbsys_main_program_start_request_type_t.PBSYS_MAIN_PROGRAM_START_REQUEST_TYPE_HUB_UI] }
      | program_run_lc.lc_54, true =>
        { s with update_program_run_button_wait_state_pt := program_run_lc.lc_54 }
      | program_run_lc.lc_53, true =>
        { s with update_program_run_button_wait_state_pt := program_run_lc.lc_54 }
      | program_run_lc.lc_53, false =>
        { s with update_program_run_button_wait_state_pt := program_run_lc.lc_53 }
      | _, true => { s with update_program_run_button_wait_state_pt := program_run_lc.lc_52 }
      | _, false => { s with update_program_run_button_wait_state_pt := program_run_lc.lc_53 } := by
  obtain ⟨rpt, bpt, lpt, sel, prev, fpt, pbp, sr, calls⟩ := s
  cases rpt <;> cases button_pressed <;>
    simp [update_program_run_button_wait_state, program_run_loop_eq, program_run_body,
      program_run_from_52, program_run_from_53, program_run_from_54]

/-- One poll of the centre-button thread while a program runs: `PT_EXIT`. -/
theorem program_run_poll_running (button_pressed : Bool) (s : HmiState) :
    update_program_run_button_wait_state true button_pressed s =
      { s with update_program_run_button_wait_state_pt := program_run_lc.lc_0 } := by
  simp [update_program_run_button_wait_state]

/-- The Bluetooth-button thread only writes its own thread state and the call
log. -/
theorem bluetooth_poll_frame (running button_pressed : Bool) (s : HmiState) :
    ∃ pt calls, update_bluetooth_button_wait_state running button_pressed s =
      { s with update_bluetooth_button_wait_state_pt := pt, calls := s.calls ++ calls } := by
  obtain ⟨rpt, bpt, lpt, sel, prev, fpt, pbp, sr, calls⟩ := s
  cases running
  · cases bpt <;> cases button_pressed <;>
      simp [update_bluetooth_button_wait_state, bluetooth_loop_eq, bluetooth_body,
        bluetooth_from_84, bluetooth_from_85]
  · exact ⟨bluetooth_lc.lc_0, [], by simp [update_bluetooth_button_wait_state]⟩

/-- The left/right thread leaves the other two thread states and the two
status flags alone, and only appends to the call log. -/
theorem left_right_poll_frame (cfg : HmiConfig) (running left right : Bool)
    (c1 c2 : Nat) (s : HmiState) :
    (update_left_right_button_wait_state cfg running left right c1 c2
        s).update_program_run_button_wait_state_pt = s.update_program_run_button_wait_state_pt ∧
    (update_left_right_button_wait_state cfg running left right c1 c2
        s).update_bluetooth_button_wait_state_pt = s.update_bluetooth_button_wait_state_pt ∧
    (update_left_right_button_wait_state cfg running left right c1 c2
        s).power_button_pressed = s.power_button_pressed ∧
    (update_left_right_button_wait_state cfg running left right c1 c2
        s).shutdown_request = s.shutdown_request ∧
    ∃ extra, (update_left_right_button_wait_state cfg running left right c1 c2 s).calls =
      s.calls ++ extra := by
  obtain ⟨rpt, bpt, lpt, sel, prev, fpt, pbp, sr, calls⟩ := s
  cases running
  · cases lpt <;> cases left <;> cases right <;>
      simp only [update_left_right_button_wait_state, left_right_loop_eq, left_right_body,
        left_right_from_128, left_right_from_131, left_right_from_147, left_right_increment,
        left_right_decrement] <;>
      (try simp) <;> (try split_ifs) <;> (try simp)
  · simp [update_left_right_button_wait_state]

/-- One poll of the left/right thread keeps both slots within 0..4. -/
theorem left_right_poll_range (cfg : HmiConfig) (running left right : Bool)
    (c1 c2 : Nat) (s : HmiState) (hsel : s.selected_slot ≤ 4) (hprev : s.previous_slot ≤ 4) :
    (update_left_right_button_wait_state cfg running left right c1 c2 s).selected_slot ≤ 4 ∧
    (update_left_right_button_wait_state cfg running left right c1 c2 s).previous_slot ≤ 4 := by
  obtain ⟨rpt, bpt, lpt, sel, prev, fpt, pbp, sr, calls⟩ := s
  simp only at hsel hprev
  cases running
  · cases lpt <;> cases left <;> cases right <;>
      simp only [update_left_right_button_wait_state, left_right_loop_eq, left_right_body,
        left_right_from_128, left_right_from_131, left_right_from_147, left_right_increment,
        left_right_decrement] <;>
      (try simp) <;> (try split_ifs) <;> (try simp) <;> (try omega)
  · simp [update_left_right_button_wait_state, hsel, hprev]

/-- The centre-button thread writes its own thread state and the call log
only; the thread state and the calls it makes do not depend on the status
flags. -/
theorem program_run_poll_frame (running button_pressed : Bool) (s : HmiState) :
    ∃ pt calls,
      (∀ pbp sr, update_program_run_button_wait_state running button_pressed
          { s with power_button_pressed := pbp, shutdown_request := sr } =
        { s with
          update_program_run_button_wait_state_pt := pt
          calls := s.calls ++ calls
          power_button_pressed := pbp
          shutdown_request := sr }) ∧
      update_program_run_button_wait_state running button_pressed s =
        { s with update_program_run_button_wait_state_pt := pt, calls := s.calls ++ calls } := by
  obtain ⟨rpt, bpt, lpt, sel, prev, fpt, pbp, sr, calls⟩ := s
  cases running
  · cases rpt <;> cases button_pressed <;> simp [program_run_poll]
  · exact ⟨program_run_lc.lc_0, [], by simp [program_run_poll_running]⟩

/-- The calls that the centre-button thread makes in one poll: one request to
start the selected slot when the thread stood at line 54, the button is
released and no program runs; none otherwise. -/
theorem program_run_poll_calls (running button_pressed : Bool) (s : HmiState) :
    (update_program_run_button_wait_state running button_pressed s).calls.drop s.calls.length =
      if running = false ∧ button_pressed = false ∧
          s.update_program_run_button_wait_state_pt = program_run_lc.lc_54 then
        [HmiCall.pbsys_main_program_request_start s.selected_slot
          pbsys_main_program_start_request_type_t.PBSYS_MAIN_PROGRAM_START_REQUEST_TYPE_HUB_UI]
      else [] := by
  obtain ⟨rpt, bpt, lpt, sel, prev, fpt, pbp, sr, calls⟩ := s
  cases running
  · cases rpt <;> cases button_pressed <;> simp [program_run_poll]
  · simp [program_run_poll_running]

/-- Where the centre-button thread stands after one poll. -/
theorem program_run_poll_pt (running button_pressed : Bool) (s : HmiState) :
    (update_program_run_button_wait_state running button_pressed
        s).update_program_run_button_wait_state_pt =
      if running then program_run_lc.lc_0
      else if button_pressed then
        (if s.update_program_run_button_wait_state_pt = program_run_lc.lc_53 ∨
            s.update_program_run_button_wait_state_pt = program_run_lc.lc_54
          then program_run_lc.lc_54 else program_run_lc.lc_52)
      else program_run_lc.lc_53 := by
  obtain ⟨rpt, bpt, lpt, sel, prev, fpt, pbp, sr, calls⟩ := s
  cases running
  · cases rpt <;> cases button_pressed <;> simp [program_run_poll]
  · simp [program_run_poll_running]

/-- The Bluetooth-button thread leaves everything but its own thread state and
the call log alone, and only appends to the call log. -/
theorem bluetooth_poll_proj (running button_pressed : Bool) (s : HmiState) :
    (update_bluetooth_button_wait_state running button_pressed
        s).update_program_run_button_wait_state_pt = s.update_program_run_button_wait_state_pt ∧
    (update_bluetooth_button_wait_state running button_pressed
        s).update_left_right_button_wait_state_pt = s.update_left_right_button_wait_state_pt ∧
    (update_bluetooth_button_wait_state running button_pressed s).selected_slot =
      s.selected_slot ∧
    (update_bluetooth_button_wait_state running button_pressed s).previous_slot =
      s.previous_slot ∧
    (update_bluetooth_button_wait_state running button_pressed s).first_press_time =
      s.first_press_time ∧
    ∃ extra, (update_bluetooth_button_wait_state running button_pressed s).calls =
      s.calls ++ extra := by
  obtain ⟨pt, calls, h⟩ := bluetooth_poll_frame running button_pressed s
  rw [h]
  exact ⟨rfl, rfl, rfl, rfl, rfl, calls, rfl⟩

/-- The part of `pbsys_hmi_poll` after the centre button: the Bluetooth-button
thread and the left/right thread leave the centre-button thread state alone and
only append to the call log. -/
theorem hmi_poll_tail (cfg : HmiConfig) (inp : HmiInput) (a : HmiState) :
    (if cfg.PBSYS_CONFIG_HMI_NUM_SLOTS ≠ 0 then
        update_left_right_button_wait_state cfg inp.user_program_running inp.left inp.right
          inp.clock_first_press inp.clock_check
          (if cfg.PBSYS_CONFIG_BLUETOOTH_TOGGLE then
            update_bluetooth_button_wait_state inp.user_program_running inp.bluetooth_button a
          else a)
      else
        (if cfg.PBSYS_CONFIG_BLUETOOTH_TOGGLE then
          update_bluetooth_button_wait_state inp.user_program_running inp.bluetooth_button a
        else a)).update_program_run_button_wait_state_pt =
      a.update_program_run_button_wait_state_pt ∧
    ∃ rest,
      (if cfg.PBSYS_CONFIG_HMI_NUM_SLOTS ≠ 0 then
        update_left_right_button_wait_state cfg inp.user_program_running inp.left inp.right
          inp.clock_first_press inp.clock_check
          (if cfg.PBSYS_CONFIG_BLUETOOTH_TOGGLE then
            update_bluetooth_button_wait_state inp.user_program_running inp.bluetooth_button a
          else a)
      else
        (if cfg.PBSYS_CONFIG_BLUETOOTH_TOGGLE then
          update_bluetooth_button_wait_state inp.user_program_running inp.bluetooth_button a
        else a)).calls = a.calls ++ rest := by
  obtain ⟨b1, _, _, _, _, bx, b6⟩ :=
    bluetooth_poll_proj inp.user_program_running inp.bluetooth_button a
  have hb : ∃ b : HmiState,
      (if cfg.PBSYS_CONFIG_BLUETOOTH_TOGGLE then
        update_bluetooth_button_wait_state inp.user_program_running inp.bluetooth_button a
      else a) = b ∧
      b.update_program_run_button_wait_state_pt = a.update_program_run_button_wait_state_pt ∧
      ∃ extra, b.calls = a.calls ++ extra := by
    by_cases hbt : cfg.PBSYS_CONFIG_BLUETOOTH_TOGGLE = true
    · exact ⟨_, rfl, by simp only [hbt, if_true]; exact ⟨b1, bx, b6⟩⟩
    · exact ⟨_, rfl, by simp only [hbt]; exact ⟨rfl, [], by simp⟩⟩
  obtain ⟨b, hbeq, hbpt, bextra, hbcalls⟩ := hb
  rw [hbeq]
  obtain ⟨f1, _, _, _, lx, f5⟩ := left_right_poll_frame cfg inp.user_program_running
    inp.left inp.right inp.clock_first_press inp.clock_check b
  by_cases hns : cfg.PBSYS_CONFIG_HMI_NUM_SLOTS = 0
  · simp only [hns, ne_eq, not_true_eq_false, if_false]
    exact ⟨hbpt, bextra, hbcalls⟩
  · simp only [hns, ne_eq, not_false_eq_true, if_true]
    exact ⟨f1.trans hbpt, bextra ++ lx, by rw [f5, hbcalls, List.append_assoc]⟩

/-- The centre-button part of `pbsys_hmi_poll` leaves the thread state and the
call log as the poll of the centre-button thread on the state before does. -/
theorem hmi_poll_head (inp : HmiInput) (s : HmiState) :
    (if inp.center then
        (if inp.power_button_held then
          { update_program_run_button_wait_state inp.user_program_running true
              { s with power_button_pressed := true } with shutdown_request := true }
        else update_program_run_button_wait_state inp.user_program_running true
              { s with power_button_pressed := true })
      else update_program_run_button_wait_state inp.user_program_running false
              { s with power_button_pressed := false }).update_program_run_button_wait_state_pt =
      (update_program_run_button_wait_state inp.user_program_running inp.center
        s).update_program_run_button_wait_state_pt ∧
    (if inp.center then
        (if inp.power_button_held then
          { update_program_run_button_wait_state inp.user_program_running true
              { s with power_button_pressed := true } with shutdown_request := true }
        else update_program_run_button_wait_state inp.user_program_running true
              { s with power_button_pressed := true })
      else update_program_run_button_wait_state inp.user_program_running false
              { s with power_button_pressed := false }).calls =
      (update_program_run_button_wait_state inp.user_program_running inp.center s).calls := by
  obtain ⟨pt, calls, h1, h2⟩ :=
    program_run_poll_frame inp.user_program_running inp.center s
  rw [h2]
  cases hcen : inp.center
  · have h := h1 false s.shutdown_request
    rw [hcen] at h
    simp only [Bool.false_eq_true, if_false]
    rw [h]
    exact ⟨rfl, rfl⟩
  · have h := h1 true s.shutdown_request
    rw [hcen] at h
    simp only [if_true]
    rw [h]
    cases inp.power_button_held <;> exact ⟨rfl, rfl⟩

/-- One `pbsys_hmi_poll`, seen from the centre-button thread: its thread state
afterwards is the one its own poll leaves, and the call log is the log after
its poll followed by the calls of the other threads. -/
theorem hmi_poll_program_run (cfg : HmiConfig) (inp : HmiInput) (s : HmiState) :
    (pbsys_hmi_poll cfg inp s).update_program_run_button_wait_state_pt =
      (update_program_run_button_wait_state inp.user_program_running inp.center
        s).update_program_run_button_wait_state_pt ∧
    ∃ rest, (pbsys_hmi_poll cfg inp s).calls =
      (update_program_run_button_wait_state inp.user_program_running inp.center s).calls ++
        rest := by
  obtain ⟨t1, rest, t2⟩ := hmi_poll_tail cfg inp
    (if inp.center then
        (if inp.power_button_held then
          { update_program_run_button_wait_state inp.user_program_running true
              { s with power_button_pressed := true } with shutdown_request := true }
        else update_program_run_button_wait_state inp.user_program_running true
              { s with power_button_pressed := true })
      else update_program_run_button_wait_state inp.user_program_running false
              { s with power_button_pressed := false })
  obtain ⟨c1, c2⟩ := hmi_poll_head inp s
  rw [c1] at t1
  rw [c2] at t2
  exact ⟨t1, rest, t2⟩

/-! ## Hub HMI: runs of polls, the centre button -/

theorem hmi_states_succ (cfg : HmiConfig) (inputs : Nat → HmiInput) (s0 : HmiState) (k : Nat) :
    hmi_states cfg inputs s0 (k + 1) =
      pbsys_hmi_poll cfg (inputs k) (hmi_states cfg inputs s0 k) := rfl

/-- Where the centre-button thread stands before poll `k + 1`, from where it
stood before poll `k` and the input of poll `k`. -/
theorem hmi_states_program_run_pt (cfg : HmiConfig) (inputs : Nat → HmiInput) (s0 : HmiState)
    (k : Nat) :
    (hmi_states cfg inputs s0 (k + 1)).update_program_run_button_wait_state_pt =
      if (inputs k).user_program_running then program_run_lc.lc_0
      else if (inputs k).center then
        (if (hmi_states cfg inputs s0 k).update_program_run_button_wait_state_pt =
              program_run_lc.lc_53 ∨
            (hmi_states cfg inputs s0 k).update_program_run_button_wait_state_pt =
              program_run_lc.lc_54
          then program_run_lc.lc_54 else program_run_lc.lc_52)
      else program_run_lc.lc_53 := by
  rw [hmi_states_succ, (hmi_poll_program_run cfg (inputs k) _).1, program_run_poll_pt]

/-- The calls of the centre-button thread on poll `k`. -/
theorem program_run_calls_eq (cfg : HmiConfig) (inputs : Nat → HmiInput) (s0 : HmiState)
    (k : Nat) :
    program_run_calls cfg inputs s0 k =
      if (inputs k).user_program_running = false ∧ (inputs k).center = false ∧
          (hmi_states cfg inputs s0 k).update_program_run_button_wait_state_pt =
            program_run_lc.lc_54 then
        [HmiCall.pbsys_main_program_request_start (hmi_states cfg inputs s0 k).selected_slot
          pbsys_main_program_start_request_type_t.PBSYS_MAIN_PROGRAM_START_REQUEST_TYPE_HUB_UI]
      else [] := by
  rw [program_run_calls, program_run_poll_calls]

/-- What the place where the centre-button thread stands says about the polls
before: at line 53 the button was seen released, at line 54 it was seen
released and then pressed, in both cases with no poll under a running program
and no request since. -/
theorem program_run_history (cfg : HmiConfig) (inputs : Nat → HmiInput) (s0 : HmiState)
    (h0 : s0.update_program_run_button_wait_state_pt = program_run_lc.lc_0) (k : Nat) :
    ((hmi_states cfg inputs s0 k).update_program_run_button_wait_state_pt =
        program_run_lc.lc_53 →
      ∃ i, i < k ∧ (inputs i).center = false ∧
        (∀ t, i ≤ t → t < k → (inputs t).user_program_running = false) ∧
        (∀ t, i < t → t < k → program_run_calls cfg inputs s0 t = [])) ∧
    ((hmi_states cfg inputs s0 k).update_program_run_button_wait_state_pt =
        program_run_lc.lc_54 →
      ∃ i j, i < j ∧ j < k ∧ (inputs i).center = false ∧ (inputs j).center = true ∧
        (∀ t, i ≤ t → t < k → (inputs t).user_program_running = false) ∧
        (∀ t, i < t → t < k → program_run_calls cfg inputs s0 t = [])) := by
  induction k with
  | zero =>
    constructor <;> intro h <;> simp [hmi_states, h0] at h
  | succ k ih =>
    obtain ⟨ih53, ih54⟩ := ih
    have hpt := hmi_states_program_run_pt cfg inputs s0 k
    have hcalls := program_run_calls_eq cfg inputs s0 k
    cases hrun : (inputs k).user_program_running
    · cases hcen : (inputs k).center
      · -- released: the thread goes to line 53
        simp only [hrun, hcen, Bool.false_eq_true, if_false] at hpt
        constructor
        · intro _
          refine ⟨k, Nat.lt_succ_self k, hcen, fun t h1 h2 => ?_, fun t h1 h2 => ?_⟩
          · have : t = k := by omega
            rw [this, hrun]
          · omega
        · intro h
          rw [hpt] at h
          exact absurd h (by decide)
      · -- pressed
        simp only [hrun, hcen, Bool.false_eq_true, if_false, if_true] at hpt
        have hnocall : program_run_calls cfg inputs s0 k = [] := by
          rw [hcalls, if_neg]
          simp [hcen]
        constructor
        · intro h
          rw [hpt] at h
          split_ifs at h
        · intro h
          rw [hpt] at h
          split_ifs at h with hor
          rcases hor with h53 | h54
          · obtain ⟨i, hi, hci, hr, hc⟩ := ih53 h53
            refine ⟨i, k, hi, Nat.lt_succ_self k, hci, hcen, fun t h1 h2 => ?_,
              fun t h1 h2 => ?_⟩
            · by_cases htk : t = k
              · rw [htk, hrun]
              · exact hr t h1 (by omega)
            · by_cases htk : t = k
              · rw [htk, hnocall]
              · exact hc t h1 (by omega)
          · obtain ⟨i, j, hij, hj, hci, hcj, hr, hc⟩ := ih54 h54
            refine ⟨i, j, hij, by omega, hci, hcj, fun t h1 h2 => ?_, fun t h1 h2 => ?_⟩
            · by_cases htk : t = k
              · rw [htk, hrun]
              · exact hr t h1 (by omega)
            · by_cases htk : t = k
              · rw [htk, hnocall]
              · exact hc t h1 (by omega)
    · -- a program runs: the thread is reset
      simp only [hrun, if_true] at hpt
      constructor <;> intro h <;> rw [hpt] at h <;> exact absurd h (by decide)

theorem hmi_init_program_run_pt (cfg : HmiConfig) (s0 : HmiState) :
    (pbsys_hmi_init cfg s0).update_program_run_button_wait_state_pt = program_run_lc.lc_0 := by
  unfold pbsys_hmi_init
  split_ifs <;> rfl

theorem program_run_poll_calls_append (running button_pressed : Bool) (s : HmiState) :
    (update_program_run_button_wait_state running button_pressed s).calls =
      s.calls ++
        (update_program_run_button_wait_state running button_pressed s).calls.drop
          s.calls.length := by
  obtain ⟨pt, calls, _, h2⟩ := program_run_poll_frame running button_pressed s
  rw [h2]
  simp

/-- C19: program start from the centre button. In a run of `pbsys_hmi_poll`
calls after `pbsys_hmi_init`, on every poll `k` the centre-button thread makes
either no call, or the single call `pbsys_main_program_request_start` for the
currently selected slot with type HUB_UI; in the latter case no program runs on
poll `k`, the button is released on poll `k`, and there are polls `i < j < k`
with the button released on `i` and pressed on `j`, no poll from `i` to `k`
under a running program, and no request of the thread strictly between `i` and
`k`. These calls are part of what poll `k` appends to the call log. No request
is made on a poll under a running program, and none on a poll before which the
button was pressed on every poll since init. -/
theorem program_run_request_after_press_release (cfg : HmiConfig) (inputs : Nat → HmiInput)
    (s0 : HmiState) (k : Nat) :
    (program_run_calls cfg inputs (pbsys_hmi_init cfg s0) k = [] ∨
      (program_run_calls cfg inputs (pbsys_hmi_init cfg s0) k =
          [HmiCall.pbsys_main_program_request_start
            (hmi_states cfg inputs (pbsys_hmi_init cfg s0) k).selected_slot
            pbsys_main_program_start_request_type_t.PBSYS_MAIN_PROGRAM_START_REQUEST_TYPE_HUB_UI] ∧
        (inputs k).user_program_running = false ∧ (inputs k).center = false ∧
        ∃ i j, i < j ∧ j < k ∧ (inputs i).center = false ∧ (inputs j).center = true ∧
          (∀ t, i ≤ t → t ≤ k → (inputs t).user_program_running = false) ∧
          (∀ t, i < t → t < k →
            program_run_calls cfg inputs (pbsys_hmi_init cfg s0) t = []))) ∧
    (∃ rest, (hmi_states cfg inputs (pbsys_hmi_init cfg s0) (k + 1)).calls =
      (hmi_states cfg inputs (pbsys_hmi_init cfg s0) k).calls ++
        program_run_calls cfg inputs (pbsys_hmi_init cfg s0) k ++ rest) ∧
    ((inputs k).user_program_running = true →
      program_run_calls cfg inputs (pbsys_hmi_init cfg s0) k = []) ∧
    ((∀ t, t < k → (inputs t).center = true) →
      program_run_calls cfg inputs (pbsys_hmi_init cfg s0) k = []) := by
  have hinit := hmi_init_program_run_pt cfg s0
  have hist := (program_run_history cfg inputs (pbsys_hmi_init cfg s0) hinit k).2
  have hcalls := program_run_calls_eq cfg inputs (pbsys_hmi_init cfg s0) k
  refine ⟨?_, ?_, ?_, ?_⟩
  · by_cases hc : (inputs k).user_program_running = false ∧ (inputs k).center = false ∧
        (hmi_states cfg inputs (pbsys_hmi_init cfg s0) k).update_program_run_button_wait_state_pt =
          program_run_lc.lc_54
    · right
      obtain ⟨hrun, hcen, hpt⟩ := hc
      obtain ⟨i, j, hij, hj, hci, hcj, hr, hno⟩ := hist hpt
      refine ⟨by rw [hcalls, if_pos ⟨hrun, hcen, hpt⟩], hrun, hcen, i, j, hij, hj, hci, hcj,
        fun t h1 h2 => ?_, hno⟩
      by_cases htk : t = k
      · rw [htk, hrun]
      · exact hr t h1 (by omega)
    · left
      rw [hcalls, if_neg hc]
  · obtain ⟨_, rest, h⟩ := hmi_poll_program_run cfg (inputs k)
      (hmi_states cfg inputs (pbsys_hmi_init cfg s0) k)
    refine ⟨rest, ?_⟩
    rw [hmi_states_succ, h, program_run_poll_calls_append]
    rfl
  · intro hrun
    rw [hcalls, if_neg]
    simp [hrun]
  · intro hheld
    by_cases hpt :
        (hmi_states cfg inputs (pbsys_hmi_init cfg s0) k).update_program_run_button_wait_state_pt =
          program_run_lc.lc_54
    · obtain ⟨i, j, hij, hj, hci, _⟩ := hist hpt
      have := hheld i (by omega)
      rw [hci] at this
      exact absurd this (by decide)
    · rw [hcalls, if_neg]
      simp [hpt]

/-! ## Hub HMI: runs of polls, the left and right buttons -/

/-- One `pbsys_hmi_poll`, seen from the left/right thread: the poll of that
thread (when slots are configured) on a state in which the centre-button and
Bluetooth-button parts have changed none of its variables. -/
theorem hmi_poll_left_right (cfg : HmiConfig) (inp : HmiInput) (s : HmiState) :
    ∃ mid : HmiState,
      pbsys_hmi_poll cfg inp s =
        (if cfg.PBSYS_CONFIG_HMI_NUM_SLOTS ≠ 0 then
          update_left_right_button_wait_state cfg inp.user_program_running inp.left inp.right
            inp.clock_first_press inp.clock_check mid
        else mid) ∧
      mid.update_left_right_button_wait_state_pt = s.update_left_right_button_wait_state_pt ∧
      mid.selected_slot = s.selected_slot ∧
      mid.previous_slot = s.previous_slot ∧
      mid.first_press_time = s.first_press_time := by
  obtain ⟨pt, calls, h1, _⟩ := program_run_poll_frame inp.user_program_running inp.center s
  -- the state after the centre-button part of the poll
  obtain ⟨a, ha, a1, a2, a3, a4⟩ : ∃ a : HmiState,
      (if inp.center then
        (if inp.power_button_held then
          { update_program_run_button_wait_state inp.user_program_running true
              { s with power_button_pressed := true } with shutdown_request := true }
        else update_program_run_button_wait_state inp.user_program_running true
              { s with power_button_pressed := true })
      else update_program_run_button_wait_state inp.user_program_running false
              { s with power_button_pressed := false }) = a ∧
      a.update_left_right_button_wait_state_pt = s.update_left_right_button_wait_state_pt ∧
      a.selected_slot = s.selected_slot ∧ a.previous_slot = s.previous_slot ∧
      a.first_press_time = s.first_press_time := by
    cases hcen : inp.center
    · have h := h1 false s.shutdown_request
      rw [hcen] at h
      refine ⟨_, rfl, ?_⟩
      simp only [Bool.false_eq_true, if_false]
      rw [h]
      exact ⟨rfl, rfl, rfl, rfl⟩
    · have h := h1 true s.shutdown_request
      rw [hcen] at h
      refine ⟨_, rfl, ?_⟩
      simp only [if_true]
      rw [h]
      cases inp.power_button_held <;> exact ⟨rfl, rfl, rfl, rfl⟩
  obtain ⟨_, b2, b3, b4, b5, _⟩ :=
    bluetooth_poll_proj inp.user_program_running inp.bluetooth_button a
  refine ⟨if cfg.PBSYS_CONFIG_BLUETOOTH_TOGGLE then
      update_bluetooth_button_wait_state inp.user_program_running inp.bluetooth_button a
    else a, ?_, ?_⟩
  · rw [← ha]
    by_cases hns : cfg.PBSYS_CONFIG_HMI_NUM_SLOTS = 0
    · simp only [pbsys_hmi_poll, hns, ne_eq, not_true_eq_false, if_false]
    · simp only [pbsys_hmi_poll, hns, ne_eq, not_false_eq_true, if_true]
  · by_cases hbt : cfg.PBSYS_CONFIG_BLUETOOTH_TOGGLE = true
    · simp only [hbt, if_true]
      exact ⟨b2.trans a1, b3.trans a2, b4.trans a3, b5.trans a4⟩
    · simp only [hbt]
      exact ⟨a1, a2, a3, a4⟩

/-- One `pbsys_hmi_poll` keeps both slots within 0..4. -/
theorem hmi_poll_range (cfg : HmiConfig) (inp : HmiInput) (s : HmiState)
    (hsel : s.selected_slot ≤ 4) (hprev : s.previous_slot ≤ 4) :
    (pbsys_hmi_poll cfg inp s).selected_slot ≤ 4 ∧
    (pbsys_hmi_poll cfg inp s).previous_slot ≤ 4 := by
  obtain ⟨mid, hpoll, _, m2, m3, _⟩ := hmi_poll_left_right cfg inp s
  rw [hpoll]
  split_ifs
  · exact left_right_poll_range cfg _ _ _ _ _ mid (by rw [m2]; exact hsel)
      (by rw [m3]; exact hprev)
  · rw [m2, m3]
    exact ⟨hsel, hprev⟩

/-- A poll of the left/right thread with only the right button pressed leaves
slot 4 selected; with only the left button pressed it leaves slot 0
selected. -/
theorem left_right_poll_at_end (cfg : HmiConfig) (running : Bool) (c1 c2 : Nat)
    (s : HmiState) :
    (s.selected_slot = 4 →
      (update_left_right_button_wait_state cfg running false true c1 c2 s).selected_slot = 4) ∧
    (s.selected_slot = 0 →
      (update_left_right_button_wait_state cfg running true false c1 c2 s).selected_slot = 0) := by
  obtain ⟨rpt, bpt, lpt, sel, prev, fpt, pbp, sr, calls⟩ := s
  constructor <;> intro h <;> simp only at h <;> subst h <;> cases running <;> cases lpt <;>
    simp [update_left_right_button_wait_state, left_right_loop_eq, left_right_body,
      left_right_from_128, left_right_from_131, left_right_from_147, left_right_increment,
      left_right_decrement]

/-- A poll of the left/right thread that ends a gesture with both buttons
pressed less than 100 ms after the first press sets the selected slot to
`previous_slot`, and the last two calls it makes are the light-matrix update and
the request to start the port-view program. -/
theorem left_right_poll_reverts (cfg : HmiConfig) (running left right : Bool) (c1 c2 : Nat)
    (s : HmiState) (hrev : left_right_reverts running left right c1 c2 s) :
    (update_left_right_button_wait_state cfg running left right c1 c2 s).selected_slot =
      s.previous_slot ∧
    (update_left_right_button_wait_state cfg running left right c1 c2 s).previous_slot =
      s.previous_slot ∧
    ∃ extra, (update_left_right_button_wait_state cfg running left right c1 c2 s).calls =
      s.calls ++ extra ++
        [HmiCall.pbsys_hub_light_matrix_update_program_slot,
         HmiCall.pbsys_main_program_request_start cfg.PBIO_PYBRICKS_USER_PROGRAM_ID_PORT_VIEW
          pbsys_main_program_start_request_type_t.PBSYS_MAIN_PROGRAM_START_REQUEST_TYPE_HUB_UI] := by
  obtain ⟨rpt, bpt, lpt, sel, prev, fpt, pbp, sr, calls⟩ := s
  obtain ⟨hrun, hl, hr, hcase⟩ := hrev
  subst hrun hl hr
  rcases hcase with ⟨hpt, he⟩ | ⟨hpt, he⟩
  · simp only at hpt he
    subst hpt
    refine ⟨?_, ?_, [], ?_⟩ <;>
      simp [update_left_right_button_wait_state, left_right_loop_eq, left_right_body,
        left_right_from_128, left_right_from_131, left_right_from_147, he]
  · simp only at hpt he
    subst hpt
    by_cases h4 : sel < 4
    · refine ⟨?_, ?_, [HmiCall.pbsys_hub_light_matrix_update_program_slot,
        HmiCall.pbsys_hub_light_matrix_update_program_slot], ?_⟩ <;>
        simp [update_left_right_button_wait_state, left_right_loop_eq, left_right_body,
          left_right_from_128, left_right_from_131, left_right_from_147, left_right_increment,
          left_right_decrement, he, h4]
    · have h0 : 0 < sel := by omega
      refine ⟨?_, ?_, [HmiCall.pbsys_hub_light_matrix_update_program_slot], ?_⟩ <;>
        simp [update_left_right_button_wait_state, left_right_loop_eq, left_right_body,
          left_right_from_128, left_right_from_131, left_right_from_147, left_right_increment,
          left_right_decrement, he, h4, h0]

/-- A poll of the left/right thread that does not revert moves the selected
slot by at most one step, and makes no request to start a program. -/
theorem left_right_poll_no_revert (cfg : HmiConfig) (running left right : Bool) (c1 c2 : Nat)
    (s : HmiState) (hrev : ¬ left_right_reverts running left right c1 c2 s) :
    (update_left_right_button_wait_state cfg running left right c1 c2 s).selected_slot ≤
      s.selected_slot + 1 ∧
    s.selected_slot ≤
      (update_left_right_button_wait_state cfg running left right c1 c2 s).selected_slot + 1 := by
  obtain ⟨rpt, bpt, lpt, sel, prev, fpt, pbp, sr, calls⟩ := s
  cases running
  · by_cases h4 : sel < 4 <;> by_cases h0 : 0 < sel <;>
      by_cases he : uint32_sub c2 fpt < 100 <;>
      by_cases he2 : uint32_sub c2 (c1 % 4294967296) < 100 <;>
      cases lpt <;> cases left <;> cases right <;>
      simp [left_right_reverts, he, he2] at hrev <;>
      simp [update_left_right_button_wait_state, left_right_loop_eq, left_right_body,
        left_right_from_128, left_right_from_131, left_right_from_147, left_right_increment,
        left_right_decrement, h4, h0, he, he2] <;>
      omega
  · simp [update_left_right_button_wait_state]

/-- C20: slot range invariant. Starting from the boot state (slot 0 selected),
before and after every `pbsys_hmi_poll` of every run, whatever the buttons,
clock values and running flags, `selected_slot` and `previous_slot` are at most
4; one poll of the left/right thread keeps them so; a poll with only the right
button pressed leaves slot 4 selected and a poll with only the left button
pressed leaves slot 0 selected; and a poll of the left/right thread either moves
the selected slot by at most one step or is a revert, which sets it to
`previous_slot`. -/
theorem slot_range_invariant (cfg : HmiConfig) (inputs : Nat → HmiInput) :
    (∀ k, (hmi_states cfg inputs HmiState.boot k).selected_slot ≤ 4 ∧
      (hmi_states cfg inputs HmiState.boot k).previous_slot ≤ 4) ∧
    (∀ (running left right : Bool) (c1 c2 : Nat) (s : HmiState),
      s.selected_slot ≤ 4 → s.previous_slot ≤ 4 →
      (update_left_right_button_wait_state cfg running left right c1 c2 s).selected_slot ≤ 4 ∧
      (update_left_right_button_wait_state cfg running left right c1 c2 s).previous_slot ≤ 4) ∧
    (∀ (running : Bool) (c1 c2 : Nat) (s : HmiState), s.selected_slot = 4 →
      (update_left_right_button_wait_state cfg running false true c1 c2 s).selected_slot = 4) ∧
    (∀ (running : Bool) (c1 c2 : Nat) (s : HmiState), s.selected_slot = 0 →
      (update_left_right_button_wait_state cfg running true false c1 c2 s).selected_slot = 0) ∧
    (∀ (running left right : Bool) (c1 c2 : Nat) (s : HmiState),
      ((update_left_right_button_wait_state cfg running left right c1 c2 s).selected_slot ≤
          s.selected_slot + 1 ∧
        s.selected_slot ≤
          (update_left_right_button_wait_state cfg running left right c1 c2 s).selected_slot + 1) ∨
      (left_right_reverts running left right c1 c2 s ∧
        (update_left_right_button_wait_state cfg running left right c1 c2 s).selected_slot =
          s.previous_slot)) := by
  refine ⟨fun k => ?_, fun running left right c1 c2 s h1 h2 =>
      left_right_poll_range cfg running left right c1 c2 s h1 h2,
    fun running c1 c2 s h => (left_right_poll_at_end cfg running c1 c2 s).1 h,
    fun running c1 c2 s h => (left_right_poll_at_end cfg running c1 c2 s).2 h,
    fun running left right c1 c2 s => ?_⟩
  · induction k with
    | zero => exact ⟨Nat.zero_le 4, Nat.zero_le 4⟩
    | succ k ih => exact hmi_poll_range cfg (inputs k) _ ih.1 ih.2
  · by_cases hrev : left_right_reverts running left right c1 c2 s
    · exact Or.inr ⟨hrev, (left_right_poll_reverts cfg running left right c1 c2 s hrev).1⟩
    · exact Or.inl (left_right_poll_no_revert cfg running left right c1 c2 s hrev)

/-! ## Hub HMI: the revert after an interrupted gesture -/

/-- The run `example_interrupted_gesture` on `example_hmi_config` from the boot
state: the state before each of the polls 4, 5 and after poll 5. -/
theorem example_interrupted_gesture_states :
    hmi_states example_hmi_config example_interrupted_gesture HmiState.boot 4 =
      { HmiState.boot with
        update_left_right_button_wait_state_pt := left_right_lc.lc_131
        update_program_run_button_wait_state_pt := program_run_lc.lc_53
        selected_slot := 1
        previous_slot := 0
        first_press_time := 1010
        calls := [HmiCall.pbsys_hub_light_matrix_update_program_slot] } ∧
    hmi_states example_hmi_config example_interrupted_gesture HmiState.boot 5 =
      { HmiState.boot with
        update_left_right_button_wait_state_pt := left_right_lc.lc_147
        update_program_run_button_wait_state_pt := program_run_lc.lc_53
        selected_slot := 2
        previous_slot := 0
        first_press_time := 5010
        calls := [HmiCall.pbsys_hub_light_matrix_update_program_slot,
          HmiCall.pbsys_hub_light_matrix_update_program_slot] } ∧
    hmi_states example_hmi_config example_interrupted_gesture HmiState.boot 6 =
      { HmiState.boot with
        update_left_right_button_wait_state_pt := left_right_lc.lc_128
        update_program_run_button_wait_state_pt := program_run_lc.lc_53
        selected_slot := 0
        previous_slot := 0
        first_press_time := 5010
        calls := [HmiCall.pbsys_hub_light_matrix_update_program_slot,
          HmiCall.pbsys_hub_light_matrix_update_program_slot,
          HmiCall.pbsys_hub_light_matrix_update_program_slot,
          HmiCall.pbsys_main_program_request_start 129
            pbsys_main_program_start_request_type_t.PBSYS_MAIN_PROGRAM_START_REQUEST_TYPE_HUB_UI] } := by
  have h1 : hmi_states example_hmi_config example_interrupted_gesture HmiState.boot 1 =
      { HmiState.boot with
        update_left_right_button_wait_state_pt := left_right_lc.lc_131
        update_program_run_button_wait_state_pt := program_run_lc.lc_53 } := by
    simp [hmi_states, pbsys_hmi_poll, example_interrupted_gesture, example_hmi_input,
      example_hmi_config, HmiState.boot, program_run_poll,
      update_left_right_button_wait_state, left_right_loop_eq, left_right_body,
      left_right_from_128, left_right_from_131]
  have h2 : hmi_states example_hmi_config example_interrupted_gesture HmiState.boot 2 =
      { HmiState.boot with
        update_left_right_button_wait_state_pt := left_right_lc.lc_147
        update_program_run_button_wait_state_pt := program_run_lc.lc_53
        selected_slot := 1
        first_press_time := 1010
        calls := [HmiCall.pbsys_hub_light_matrix_update_program_slot] } := by
    rw [hmi_states_succ, h1]
    simp [pbsys_hmi_poll, example_interrupted_gesture, example_hmi_input,
      example_hmi_config, HmiState.boot, program_run_poll,
      update_left_right_button_wait_state, left_right_loop_eq, left_right_body,
      left_right_from_131, left_right_from_147, left_right_increment, left_right_decrement]
  have h3 : hmi_states example_hmi_config example_interrupted_gesture HmiState.boot 3 =
      { HmiState.boot with
        update_left_right_button_wait_state_pt := left_right_lc.lc_0
        update_program_run_button_wait_state_pt := program_run_lc.lc_0
        selected_slot := 1
        first_press_time := 1010
        calls := [HmiCall.pbsys_hub_light_matrix_update_program_slot] } := by
    rw [hmi_states_succ, h2]
    simp [pbsys_hmi_poll, example_interrupted_gesture, example_hmi_input,
      example_hmi_config, HmiState.boot, program_run_poll_running,
      update_left_right_button_wait_state]
  have h4 : hmi_states example_hmi_config example_interrupted_gesture HmiState.boot 4 =
      { HmiState.boot with
        update_left_right_button_wait_state_pt := left_right_lc.lc_131
        update_program_run_button_wait_state_pt := program_run_lc.lc_53
        selected_slot := 1
        previous_slot := 0
        first_press_time := 1010
        calls := [HmiCall.pbsys_hub_light_matrix_update_program_slot] } := by
    rw [hmi_states_succ, h3]
    simp [pbsys_hmi_poll, example_interrupted_gesture, example_hmi_input,
      example_hmi_config, HmiState.boot, program_run_poll,
      update_left_right_button_wait_state, left_right_loop_eq, left_right_body,
      left_right_from_128, left_right_from_131]
  have h5 : hmi_states example_hmi_config example_interrupted_gesture HmiState.boot 5 =
      { HmiState.boot with
        update_left_right_button_wait_state_pt := left_right_lc.lc_147
        update_program_run_button_wait_state_pt := program_run_lc.lc_53
        selected_slot := 2
        previous_slot := 0
        first_press_time := 5010
        calls := [HmiCall.pbsys_hub_light_matrix_update_program_slot,
          HmiCall.pbsys_hub_light_matrix_update_program_slot] } := by
    rw [hmi_states_succ, h4]
    simp [pbsys_hmi_poll, example_interrupted_gesture, example_hmi_input,
      example_hmi_config, HmiState.boot, program_run_poll,
      update_left_right_button_wait_state, left_right_loop_eq, left_right_body,
      left_right_from_131, left_right_from_147, left_right_increment, left_right_decrement]
  refine ⟨h4, h5, ?_⟩
  rw [hmi_states_succ, h5]
  simp [pbsys_hmi_poll, example_interrupted_gesture, example_hmi_input,
    example_hmi_config, HmiState.boot, program_run_poll,
    update_left_right_button_wait_state, left_right_loop_eq, left_right_body,
    left_right_from_128, left_right_from_147, uint32_sub]

/-- C18 fails on the code after an interrupted gesture. In the run
`example_interrupted_gesture` the right button is pressed at slot 0 (slot 1 is
selected) and, while it is held, a program starts, so that the thread is reset
in the middle of the gesture. After the program, slot 1 is selected and nothing
is pressed: the thread waits for a press. The next gesture starts with a right
press (slot 2) and ends 50 ms later with both buttons pressed, so the poll
reverts and requests the port view. The slot selected after that poll is 0, not
the slot 1 that was selected just before the first press of the gesture. -/
theorem left_right_revert_after_interrupted_gesture :
    (hmi_states example_hmi_config example_interrupted_gesture HmiState.boot 4).selected_slot =
      1 ∧
    (hmi_states example_hmi_config example_interrupted_gesture
      HmiState.boot 4).update_left_right_button_wait_state_pt = left_right_lc.lc_131 ∧
    (hmi_states example_hmi_config example_interrupted_gesture HmiState.boot 5).selected_slot =
      2 ∧
    left_right_reverts (example_interrupted_gesture 5).user_program_running
      (example_interrupted_gesture 5).left (example_interrupted_gesture 5).right
      (example_interrupted_gesture 5).clock_first_press
      (example_interrupted_gesture 5).clock_check
      (hmi_states example_hmi_config example_interrupted_gesture HmiState.boot 5) ∧
    (hmi_states example_hmi_config example_interrupted_gesture HmiState.boot 6).selected_slot =
      0 ∧
    (hmi_states example_hmi_config example_interrupted_gesture HmiState.boot 6).calls.getLast? =
      some (HmiCall.pbsys_main_program_request_start
        example_hmi_config.PBIO_PYBRICKS_USER_PROGRAM_ID_PORT_VIEW
        pbsys_main_program_start_request_type_t.PBSYS_MAIN_PROGRAM_START_REQUEST_TYPE_HUB_UI) := by
  obtain ⟨h4, h5, h6⟩ := example_interrupted_gesture_states
  rw [h4, h5, h6]
  refine ⟨rfl, rfl, rfl, ?_, rfl, rfl⟩
  simp [left_right_reverts, example_interrupted_gesture, example_hmi_input, uint32_sub]

/-- What one poll of the left/right thread without a running program does to
`previous_slot`: it is kept while a gesture is in progress afterwards, and it
equals the selected slot afterwards otherwise, provided it did so before or a
gesture was in progress. -/
theorem left_right_poll_previous (cfg : HmiConfig) (left right : Bool) (c1 c2 : Nat)
    (s : HmiState) :
    ((update_left_right_button_wait_state cfg false left right c1 c2
          s).update_left_right_button_wait_state_pt = left_right_lc.lc_147 →
      (update_left_right_button_wait_state cfg false left right c1 c2 s).previous_slot =
        s.previous_slot) ∧
    ((update_left_right_button_wait_state cfg false left right c1 c2
          s).update_left_right_button_wait_state_pt ≠ left_right_lc.lc_147 →
      (s.update_left_right_button_wait_state_pt = left_right_lc.lc_147 ∨
        s.previous_slot = s.selected_slot) →
      (update_left_right_button_wait_state cfg false left right c1 c2 s).previous_slot =
        (update_left_right_button_wait_state cfg false left right c1 c2 s).selected_slot) := by
  obtain ⟨rpt, bpt, lpt, sel, prev, fpt, pbp, sr, calls⟩ := s
  by_cases h4 : sel < 4 <;> by_cases h0 : 0 < sel <;>
    by_cases he : uint32_sub c2 fpt < 100 <;>
    by_cases he2 : uint32_sub c2 (c1 % 4294967296) < 100 <;>
    cases lpt <;> cases left <;> cases right <;>
    simp [update_left_right_button_wait_state, left_right_loop_eq, left_right_body,
      left_right_from_128, left_right_from_131, left_right_from_147, left_right_increment,
      left_right_decrement, h4, h0, he, he2]

theorem gesture_start_slot_idle (cfg : HmiConfig) (inputs : Nat → HmiInput) (s0 : HmiState)
    (k : Nat)
    (h : (hmi_states cfg inputs s0 k).update_left_right_button_wait_state_pt ≠
      left_right_lc.lc_147) :
    gesture_start_slot cfg inputs s0 k = (hmi_states cfg inputs s0 k).selected_slot := by
  cases k with
  | zero => rfl
  | succ k => simp [gesture_start_slot, h]

/-- As long as no poll under a running program falls into a gesture in
progress, `previous_slot` is the slot that was selected just before the first
press of the gesture in progress, or the selected slot when there is none. -/
theorem previous_slot_eq_gesture_start (cfg : HmiConfig) (inputs : Nat → HmiInput)
    (hns : cfg.PBSYS_CONFIG_HMI_NUM_SLOTS ≠ 0) (k : Nat)
    (hrun : ∀ j, j < k → (inputs j).user_program_running = true →
      (hmi_states cfg inputs HmiState.boot j).update_left_right_button_wait_state_pt ≠
        left_right_lc.lc_147) :
    (hmi_states cfg inputs HmiState.boot k).previous_slot =
      gesture_start_slot cfg inputs HmiState.boot k := by
  induction k with
  | zero => rfl
  | succ j ih =>
    have ih := ih (fun i hi => hrun i (Nat.lt_succ_of_lt hi))
    obtain ⟨mid, hpoll, m1, m2, m3, _⟩ :=
      hmi_poll_left_right cfg (inputs j) (hmi_states cfg inputs HmiState.boot j)
    rw [if_pos hns] at hpoll
    have hsucc := hmi_states_succ cfg inputs HmiState.boot j
    cases hr : (inputs j).user_program_running
    · -- no program runs on poll `j`
      rw [hr] at hpoll
      obtain ⟨p1, p2⟩ := left_right_poll_previous cfg (inputs j).left (inputs j).right
        (inputs j).clock_first_press (inputs j).clock_check mid
      rw [← hpoll, ← hsucc] at p1 p2
      by_cases h147 :
          (hmi_states cfg inputs HmiState.boot (j + 1)).update_left_right_button_wait_state_pt =
            left_right_lc.lc_147
      · rw [p1 h147, m3, ih]
        simp [gesture_start_slot, h147]
      · rw [gesture_start_slot_idle cfg inputs HmiState.boot (j + 1) h147]
        apply p2 h147
        by_cases hj :
            (hmi_states cfg inputs HmiState.boot j).update_left_right_button_wait_state_pt =
              left_right_lc.lc_147
        · exact Or.inl (m1.trans hj)
        · right
          rw [m2, m3, ih, gesture_start_slot_idle cfg inputs HmiState.boot j hj]
    · -- a program runs on poll `j`: the thread is reset
      rw [hr] at hpoll
      have hj := hrun j (Nat.lt_succ_self j) hr
      have hform : hmi_states cfg inputs HmiState.boot (j + 1) =
          { mid with update_left_right_button_wait_state_pt := left_right_lc.lc_0 } := by
        rw [hsucc, hpoll]
        simp [update_left_right_button_wait_state]
      have h147 :
          (hmi_states cfg inputs HmiState.boot (j + 1)).update_left_right_button_wait_state_pt ≠
            left_right_lc.lc_147 := by
        rw [hform]
        simp
      rw [gesture_start_slot_idle cfg inputs HmiState.boot (j + 1) h147, hform]
      show mid.previous_slot = mid.selected_slot
      rw [m2, m3, ih, gesture_start_slot_idle cfg inputs HmiState.boot j hj]

/-- In a run from the boot state in which no poll under a running program has
fallen into a gesture in progress, a poll that ends a gesture with both buttons
pressed less than 100 ms after the first press leaves selected the slot that
was selected just before the first press of that gesture, and the last call of
the poll requests the start of the port-view program. -/
theorem left_right_revert_restores_slot (cfg : HmiConfig) (inputs : Nat → HmiInput)
    (hns : cfg.PBSYS_CONFIG_HMI_NUM_SLOTS ≠ 0) (k : Nat)
    (hrun : ∀ j, j < k → (inputs j).user_program_running = true →
      (hmi_states cfg inputs HmiState.boot j).update_left_right_button_wait_state_pt ≠
        left_right_lc.lc_147)
    (hrev : left_right_reverts (inputs k).user_program_running (inputs k).left
      (inputs k).right (inputs k).clock_first_press (inputs k).clock_check
      (hmi_states cfg inputs HmiState.boot k)) :
    (hmi_states cfg inputs HmiState.boot (k + 1)).selected_slot =
      gesture_start_slot cfg inputs HmiState.boot k ∧
    (hmi_states cfg inputs HmiState.boot (k + 1)).calls.getLast? =
      some (HmiCall.pbsys_main_program_request_start cfg.PBIO_PYBRICKS_USER_PROGRAM_ID_PORT_VIEW
        pbsys_main_program_start_request_type_t.PBSYS_MAIN_PROGRAM_START_REQUEST_TYPE_HUB_UI) := by
  obtain ⟨mid, hpoll, m1, _, m3, m4⟩ :=
    hmi_poll_left_right cfg (inputs k) (hmi_states cfg inputs HmiState.boot k)
  rw [if_pos hns] at hpoll
  have hrev2 : left_right_reverts (inputs k).user_program_running (inputs k).left
      (inputs k).right (inputs k).clock_first_press (inputs k).clock_check mid := by
    unfold left_right_reverts at hrev ⊢
    rw [m1, m4]
    exact hrev
  obtain ⟨r1, _, extra, r3⟩ := left_right_poll_reverts cfg _ _ _ _ _ mid hrev2
  rw [hmi_states_succ, hpoll]
  refine ⟨?_, ?_⟩
  · rw [r1, m3]
    exact previous_slot_eq_gesture_start cfg inputs hns k hrun
  · rw [r3]
    simp

end Pybricks
